import Mathlib

/-!
Shallow embedding of `pyNastran/utils/atmosphere2.py` (1976-style U.S. standard
atmosphere model) and verification of its specification claims.

Python floats are modelled as real numbers; functions that can `raise` return
`Except AtmError ℝ`.  Python's dynamic typing at the one call site that passes
a boolean where a unit string is expected is modelled by the `PyVal` type
(Python's `==` between a `bool` and a `str` is `False`, matching constructor
inequality in `PyVal`).  Writes to `stderr` (the Sutherland over-temperature
warning) are modelled by returning a `Bool` flag alongside the value.
-/

/-- Value that can appear in the `alt_units` position of `_update_alt`:
the source passes either a unit string or (in `atm_unit_reynolds_number`)
the boolean `SI` flag. -/
inductive PyVal where
  | str (s : String)
  | bool (b : Bool)
deriving DecidableEq, Repr

/-- Errors raised by the source: `RuntimeError` for an invalid unit token
(recording the parameter name, the offending token and the list of units the
message says to use) and `NotImplementedError` (recording the offending
token). -/
inductive AtmError where
  | invalidUnit (argName : String) (token : PyVal) (valid : List String)
  | notImplemented (token : String)
deriving DecidableEq, Repr

/-- Embeds `_update_alt(alt, alt_units)`: converts altitude `alt_units` to
feet; raises on an unknown unit token. -/
noncomputable def _update_alt (alt : ℝ) (alt_units : PyVal) : Except AtmError ℝ :=
  if alt_units = PyVal.str "ft" then Except.ok (alt * 1)
  else if alt_units = PyVal.str "m" then Except.ok (alt * (1 / 0.3048))
  else if alt_units = PyVal.str "kft" then Except.ok (alt * 1000)
  else Except.error (AtmError.invalidUnit "alt_units" alt_units ["ft", "m", "kft"])

/-- Embeds `convert_altitude(alt, alt_units_in, alt_units_out)`. -/
noncomputable def convert_altitude (alt : ℝ) (alt_units_in alt_units_out : String) :
    Except AtmError ℝ :=
  if alt_units_in = alt_units_out then Except.ok alt
  else do
    let factor : ℝ := 1.0
    let factor ←
      if alt_units_in = "m" then Except.ok (factor / 0.3048)
      else if alt_units_in = "ft" then Except.ok factor
      else if alt_units_in = "kft" then Except.ok (factor * 1000)
      else Except.error (AtmError.invalidUnit "alt_units_in" (PyVal.str alt_units_in)
        ["ft", "m", "kft"])
    let factor ←
      if alt_units_out = "m" then Except.ok (factor * 0.3048)
      else if alt_units_out = "ft" then Except.ok factor
      else if alt_units_out = "kft" then Except.ok (factor / 1000)
      else Except.error (AtmError.invalidUnit "alt_units_out" (PyVal.str alt_units_out)
        ["ft", "m", "kft"])
    Except.ok (alt * factor)

/-- Embeds `convert_velocity(velocity, velocity_units_in, velocity_units_out)`.
The `valid` lists mirror the source's error messages (the input-side message
omits `in/s`). -/
noncomputable def convert_velocity (velocity : ℝ) (velocity_units_in velocity_units_out : String) :
    Except AtmError ℝ :=
  if velocity_units_in = velocity_units_out then Except.ok velocity
  else do
    let factor : ℝ := 1.0
    let factor ←
      if velocity_units_in = "m/s" then Except.ok (factor / 0.3048)
      else if velocity_units_in = "ft/s" then Except.ok factor
      else if velocity_units_in = "in/s" then Except.ok (factor / 12)
      else if velocity_units_in = "knots" then Except.ok (factor * 1.68781)
      else Except.error (AtmError.invalidUnit "velocity_units_in" (PyVal.str velocity_units_in)
        ["ft/s", "m/s", "knots"])
    let factor ←
      if velocity_units_out = "m/s" then Except.ok (factor * 0.3048)
      else if velocity_units_out = "ft/s" then Except.ok factor
      else if velocity_units_out = "in/s" then Except.ok (factor * 12)
      else if velocity_units_out = "knots" then Except.ok (factor / 1.68781)
      else Except.error (AtmError.invalidUnit "velocity_units_out" (PyVal.str velocity_units_out)
        ["ft/s", "m/s", "in/s", "knots"])
    Except.ok (velocity * factor)

/-- Embeds `convert_pressure(pressure, pressure_units_in, pressure_units_out)`. -/
noncomputable def convert_pressure (pressure : ℝ) (pressure_units_in pressure_units_out : String) :
    Except AtmError ℝ :=
  if pressure_units_in = pressure_units_out then Except.ok pressure
  else do
    let factor : ℝ := 1.0
    let factor ←
      if pressure_units_in = "psf" then Except.ok factor
      else if pressure_units_in = "psi" then Except.ok (factor * 144)
      else if pressure_units_in = "Pa" then Except.ok (factor / 47.880172)
      else Except.error (AtmError.invalidUnit "pressure_units_in" (PyVal.str pressure_units_in)
        ["psf", "psi", "Pa"])
    let factor ←
      if pressure_units_out = "psf" then Except.ok factor
      else if pressure_units_out = "psi" then Except.ok (factor / 144)
      else if pressure_units_out = "Pa" then Except.ok (factor * 47.880172)
      else Except.error (AtmError.invalidUnit "pressure_units_out" (PyVal.str pressure_units_out)
        ["psf", "psi", "Pa"])
    Except.ok (pressure * factor)

/-- Embeds `convert_density(density, density_units_in, density_units_out)`.
The `valid` lists mirror the source's (truncated) error messages. -/
noncomputable def convert_density (density : ℝ) (density_units_in density_units_out : String) :
    Except AtmError ℝ :=
  if density_units_in = density_units_out then Except.ok density
  else do
    let factor : ℝ := 1.0
    let factor ←
      if density_units_in = "slug/ft^3" then Except.ok factor
      else if density_units_in = "slinch/in^3" then Except.ok (factor * 12 ^ (4 : ℕ))
      else if density_units_in = "kg/m^3" then Except.ok (factor / 515.378818)
      else Except.error (AtmError.invalidUnit "density_units_in" (PyVal.str density_units_in)
        ["slug/ft^3"])
    let factor ←
      if density_units_out = "slug/ft^3" then Except.ok factor
      else if density_units_out = "slinch/in^3" then Except.ok (factor / 12 ^ (4 : ℕ))
      else if density_units_out = "kg/m^3" then Except.ok (factor * 515.378818)
      else Except.error (AtmError.invalidUnit "density_units_out" (PyVal.str density_units_out)
        ["slug/ft^3", "slinch/in^3"])
    Except.ok (density * factor)

/-- Modelled from the spec: `_convert_pressure` is called by
`get_alt_for_pressure` but never defined in the source file; spec section 4.1
specifies a single conversion entry point per dimension, so it is modelled as
the file's `convert_pressure`. -/
noncomputable def _convert_pressure := convert_pressure

/-- Modelled from the spec: `_convert_velocity` is called by
`get_alt_for_eas_mach` but never defined in the source file; spec section 4.1
specifies a single conversion entry point per dimension, so it is modelled as
the file's `convert_velocity`. -/
noncomputable def _convert_velocity := convert_velocity

/-- Embeds `_feet_to_alt_units(alt_units)`. -/
noncomputable def _feet_to_alt_units (alt_units : String) : Except AtmError ℝ :=
  if alt_units = "m" then Except.ok 0.3048
  else if alt_units = "ft" then Except.ok 1
  else Except.error (AtmError.invalidUnit "alt_units" (PyVal.str alt_units) ["ft", "m"])

/-- Temperature closed form of the first atmosphere layer (`z < 36151.725`). -/
noncomputable def temp_layer1 (z : ℝ) : ℝ := 518.0 - 0.003559996 * z

/-- Temperature closed form of the second atmosphere layer (isothermal). -/
noncomputable def temp_layer2 (_ : ℝ) : ℝ := 389.988

/-- Temperature closed form of the third atmosphere layer. -/
noncomputable def temp_layer3 (z : ℝ) : ℝ := 389.988 + 0.0016273286 * (z - 82344.678)

/-- Temperature closed form of the fourth atmosphere layer (isothermal). -/
noncomputable def temp_layer4 (_ : ℝ) : ℝ := 508.788

/-- Temperature closed form of the fifth atmosphere layer. -/
noncomputable def temp_layer5 (z : ℝ) : ℝ := 508.788 - 0.0020968273 * (z - 175346.171)

/-- Temperature closed form of the sixth atmosphere layer (isothermal). -/
noncomputable def temp_layer6 (_ : ℝ) : ℝ := 354.348

/-- Layer-selection chain of `atm_temperature` (temperature in Rankine as a
function of altitude in feet), including the above-top extrapolation branch. -/
noncomputable def temp_of_z (z : ℝ) : ℝ :=
  if z < 36151.725 then temp_layer1 z
  else if z < 82344.678 then temp_layer2 z
  else if z < 155347.756 then temp_layer3 z
  else if z < 175346.171 then temp_layer4 z
  else if z < 249000.304 then temp_layer5 z
  else if z < 299515.564 then temp_layer6 z
  else 354.348

/-- Embeds `atm_temperature(alt, alt_units, temperature_units)`.  The `valid`
list of the temperature-unit error mirrors the source's (wrong) message text
`use [ft, m]`. -/
noncomputable def atm_temperature (alt : ℝ) (alt_units temperature_units : String) :
    Except AtmError ℝ := do
  let z ← _update_alt alt (PyVal.str alt_units)
  let T := temp_of_z z
  let factor ←
    if temperature_units = "R" then Except.ok (1.0 : ℝ)
    else if temperature_units = "K" then Except.ok ((5.0 : ℝ) / 9.0)
    else Except.error (AtmError.invalidUnit "temperature_units" (PyVal.str temperature_units)
      ["ft", "m"])
  Except.ok (T * factor)

/-- Log-pressure closed form of the first atmosphere layer. -/
noncomputable def lnp_layer1 (z : ℝ) : ℝ :=
  7.657389 + 5.2561258 * Real.log (1 - 6.8634634e-6 * z)

/-- Log-pressure closed form of the second atmosphere layer. -/
noncomputable def lnp_layer2 (z : ℝ) : ℝ := 6.158411 - 4.77916918e-5 * (z - 36151.725)

/-- Log-pressure closed form of the third atmosphere layer. -/
noncomputable def lnp_layer3 (z : ℝ) : ℝ :=
  3.950775 - 11.3882724 * Real.log (1.0 + 4.17276598e-6 * (z - 82344.678))

/-- Log-pressure closed form of the fourth atmosphere layer. -/
noncomputable def lnp_layer4 (z : ℝ) : ℝ := 0.922461 - 3.62635373e-5 * (z - 155347.756)

/-- Log-pressure closed form of the fifth atmosphere layer. -/
noncomputable def lnp_layer5 (z : ℝ) : ℝ :=
  0.197235 + 8.7602095 * Real.log (1.0 - 4.12122002e-6 * (z - 175346.171))

/-- Log-pressure closed form of the sixth atmosphere layer. -/
noncomputable def lnp_layer6 (z : ℝ) : ℝ := -2.971785 - 5.1533546650e-5 * (z - 249000.304)

/-- Layer-selection chain of `atm_pressure` (natural log of pressure in psf as
a function of altitude in feet); the final `else` branch repeats the sixth
layer's formula, as the source does. -/
noncomputable def lnp_of_z (z : ℝ) : ℝ :=
  if z < 36151.725 then lnp_layer1 z
  else if z < 82344.678 then lnp_layer2 z
  else if z < 155347.756 then lnp_layer3 z
  else if z < 175346.171 then lnp_layer4 z
  else if z < 249000.304 then lnp_layer5 z
  else if z < 299515.564 then lnp_layer6 z
  else -2.971785 - 5.1533546650e-5 * (z - 249000.304)

/-- Embeds `atm_pressure(alt, alt_units, pressure_units)`. -/
noncomputable def atm_pressure (alt : ℝ) (alt_units pressure_units : String) :
    Except AtmError ℝ := do
  let z ← _update_alt alt (PyVal.str alt_units)
  let p := Real.exp (lnp_of_z z)
  let factor ← convert_pressure 1.0 "psf" pressure_units
  Except.ok (p * factor)

/-- Embeds `atm_speed_of_sound(alt, alt_units, velocity_units, gamma)`. -/
noncomputable def atm_speed_of_sound (alt : ℝ) (alt_units velocity_units : String) (gamma : ℝ) :
    Except AtmError ℝ := do
  let z ← _update_alt alt (PyVal.str alt_units)
  let T ← atm_temperature z "ft" "R"
  let R : ℝ := 1716
  let a := (gamma * R * T) ^ (0.5 : ℝ)
  let factor ← convert_velocity 1.0 "ft/s" velocity_units
  Except.ok (a * factor)

/-- Embeds `atm_velocity(alt, mach, alt_units, velocity_units)`. -/
noncomputable def atm_velocity (alt mach : ℝ) (alt_units velocity_units : String) :
    Except AtmError ℝ := do
  let a ← atm_speed_of_sound alt alt_units velocity_units 1.4
  Except.ok (mach * a)

/-- Embeds `atm_density(alt, R, alt_units, density_units)`. -/
noncomputable def atm_density (alt R : ℝ) (alt_units density_units : String) :
    Except AtmError ℝ := do
  let z ← _update_alt alt (PyVal.str alt_units)
  let P ← atm_pressure z "ft" "psf"
  let T ← atm_temperature z "ft" "R"
  let rho := P / (R * T)
  convert_density rho "slug/ft^3" density_units

/-- Embeds `sutherland_viscoscity(T)`; the second component records whether
the over-temperature warning was written to `stderr`. -/
noncomputable def sutherland_viscoscity (T : ℝ) : ℝ × Bool :=
  if T < 225 then (8.0382436e-10 * T, false)
  else (2.27e-8 * T ^ (1.5 : ℝ) / (T + 198.6), if T > 5400 then true else false)

/-- Embeds `atm_dynamic_viscosity_mu(alt, alt_units, visc_units)`. -/
noncomputable def atm_dynamic_viscosity_mu (alt : ℝ) (alt_units visc_units : String) :
    Except AtmError ℝ := do
  let z ← _update_alt alt (PyVal.str alt_units)
  let T ← atm_temperature z "ft" "R"
  let mu := (sutherland_viscoscity T).1
  let factor ←
    if visc_units = "(lbf*s)/ft^2" then Except.ok (1.0 : ℝ)
    else if visc_units = "(N*s)/m^2" ∨ visc_units = "Pa*s" then Except.ok ((47.88026 : ℝ))
    else Except.error (AtmError.notImplemented visc_units)
  Except.ok (mu * factor)

/-- Embeds `atm_kinematic_viscosity_nu(alt, alt_units, visc_units)`; note the
`m^2/s` branch squares `_feet_to_alt_units(alt_units)`, exactly as the
source does. -/
noncomputable def atm_kinematic_viscosity_nu (alt : ℝ) (alt_units visc_units : String) :
    Except AtmError ℝ := do
  let z ← _update_alt alt (PyVal.str alt_units)
  let rho ← atm_density z 1716 "ft" "slug/ft^3"
  let mu ← atm_dynamic_viscosity_mu z "ft" "(lbf*s)/ft^2"
  let nu := mu / rho
  let factor ←
    if visc_units = "ft^2/s" then Except.ok (1.0 : ℝ)
    else if visc_units = "m^2/s" then do
      let f ← _feet_to_alt_units alt_units
      Except.ok (f ^ (2 : ℕ))
    else Except.error (AtmError.notImplemented visc_units)
  Except.ok (nu * factor)

/-- Embeds `atm_unit_reynolds_number2(alt, mach, alt_units, ReL_units)`. -/
noncomputable def atm_unit_reynolds_number2 (alt mach : ℝ) (alt_units ReL_units : String) :
    Except AtmError ℝ := do
  let z ← _update_alt alt (PyVal.str alt_units)
  let gamma : ℝ := 1.4
  let R : ℝ := 1716
  let p ← atm_pressure z "ft" "psf"
  let T ← atm_temperature z "ft" "R"
  let a := (gamma * R * T) ^ (0.5 : ℝ)
  let mu := (sutherland_viscoscity T).1
  let ReL := p * a * mach / (mu * R * T)
  let factor ←
    if ReL_units = "1/ft" then Except.ok (1.0 : ℝ)
    else if ReL_units = "1/m" then Except.ok ((1.0 : ℝ) / 0.3048)
    else Except.error (AtmError.notImplemented ReL_units)
  Except.ok (ReL * factor)

/-- Embeds `atm_unit_reynolds_number(alt, mach, SI)`; the source passes the
boolean `SI` itself as the `alt_units` argument of `_update_alt`. -/
noncomputable def atm_unit_reynolds_number (alt mach : ℝ) (SI : Bool) :
    Except AtmError ℝ := do
  let z ← _update_alt alt (PyVal.bool SI)
  let rho ← atm_density z 1716 "ft" "slug/ft^3"
  let V ← atm_velocity z mach "ft" "ft/s"
  let mu ← atm_dynamic_viscosity_mu z "ft" "(lbf*s)/ft^2"
  let ReL := rho * V / mu
  if SI then Except.ok (ReL / 0.3048) else Except.ok ReL

/-- Secant iteration of `get_alt_for_density`: `dalt = 500`, tolerance `5` ft,
iteration cap `20`; the second result component counts the iterations
performed. -/
noncomputable def get_alt_for_density_loop (density alt_old alt_final : ℝ) (n : ℕ) :
    Except AtmError (ℝ × ℕ) :=
  if h : |alt_final - alt_old| > 5 ∧ n < 20 then do
    let alt1 := alt_final
    let alt2 := alt_final + 500
    let rho1 ← atm_density alt1 1716 "ft" "slug/ft^3"
    let rho2 ← atm_density alt2 1716 "ft" "slug/ft^3"
    let m := 500 / (rho2 - rho1)
    get_alt_for_density_loop density alt_final (m * (density - rho1) + alt1) (n + 1)
  else Except.ok (alt_final, n)
termination_by 20 - n
decreasing_by omega

/-- Embeds `get_alt_for_density(density)`. -/
noncomputable def get_alt_for_density (density : ℝ) : Except AtmError ℝ := do
  let r ← get_alt_for_density_loop density 0 5000 0
  Except.ok r.1

/-- Secant iteration of `get_alt_for_pressure`, with the same constants as
`get_alt_for_density_loop`. -/
noncomputable def get_alt_for_pressure_loop (pressure alt_old alt_final : ℝ) (n : ℕ) :
    Except AtmError (ℝ × ℕ) :=
  if h : |alt_final - alt_old| > 5 ∧ n < 20 then do
    let alt1 := alt_final
    let alt2 := alt_final + 500
    let press1 ← atm_pressure alt1 "ft" "psf"
    let press2 ← atm_pressure alt2 "ft" "psf"
    let m := 500 / (press2 - press1)
    get_alt_for_pressure_loop pressure alt_final (m * (pressure - press1) + alt1) (n + 1)
  else Except.ok (alt_final, n)
termination_by 20 - n
decreasing_by omega

/-- Embeds `get_alt_for_pressure(pressure, pressure_units, alt_units)`. -/
noncomputable def get_alt_for_pressure (pressure : ℝ) (pressure_units alt_units : String) :
    Except AtmError ℝ := do
  let pressure ← _convert_pressure pressure pressure_units "psf"
  let r ← get_alt_for_pressure_loop pressure 0 5000 0
  convert_altitude r.1 "ft" alt_units

/-- Embeds `get_alt_for_q_mach(q, mach, SI)`. -/
noncomputable def get_alt_for_q_mach (q mach : ℝ) (SI : Bool) : Except AtmError ℝ :=
  let pressure := 2 * q / (1.4 * mach ^ (2 : ℕ))
  let alt_units := if SI then "m" else "ft"
  let pressure_units := if SI then "Pa" else "psf"
  get_alt_for_pressure pressure pressure_units alt_units

/-- Secant iteration of `get_alt_for_eas_mach`; `k = sqrt(T0/p0)` is computed
by the wrapper before the loop. -/
noncomputable def get_alt_for_eas_mach_loop (equivalent_airspeed mach k alt_old alt_final : ℝ)
    (n : ℕ) : Except AtmError (ℝ × ℕ) :=
  if h : |alt_final - alt_old| > 5 ∧ n < 20 then do
    let alt1 := alt_final
    let alt2 := alt_final + 500
    let T1 ← atm_temperature alt1 "ft" "R"
    let T2 ← atm_temperature alt2 "ft" "R"
    let press1 ← atm_pressure alt1 "ft" "psf"
    let press2 ← atm_pressure alt2 "ft" "psf"
    let R : ℝ := 1716
    let sos1 := Real.sqrt (1.4 * R * T1)
    let sos2 := Real.sqrt (1.4 * R * T2)
    let eas1 := sos1 * mach * Real.sqrt (press1 / T1) * k
    let eas2 := sos2 * mach * Real.sqrt (press2 / T2) * k
    let m := 500 / (eas2 - eas1)
    get_alt_for_eas_mach_loop equivalent_airspeed mach k alt_final
      (m * (equivalent_airspeed - eas1) + alt1) (n + 1)
  else Except.ok (alt_final, n)
termination_by 20 - n
decreasing_by omega

/-- Embeds `get_alt_for_eas_mach(equivalent_airspeed, mach, velocity_units,
alt_units)`. -/
noncomputable def get_alt_for_eas_mach (equivalent_airspeed mach : ℝ)
    (velocity_units alt_units : String) : Except AtmError ℝ := do
  let equivalent_airspeed ← _convert_velocity equivalent_airspeed velocity_units "ft/s"
  let T0 ← atm_temperature 0 "ft" "R"
  let p0 ← atm_pressure 0 "ft" "psf"
  let k := Real.sqrt (T0 / p0)
  let r ← get_alt_for_eas_mach_loop equivalent_airspeed mach k 0 5000 0
  convert_altitude r.1 "ft" alt_units

/-! ### Basic reduction lemmas -/

/-- Reduction of `Except` bind on a successful value. -/
theorem exceptBind_ok {ε α β : Type} (a : α) (f : α → Except ε β) :
    (Except.ok a : Except ε α) >>= f = f a := rfl

/-- Reduction of `Except` bind on an error value. -/
theorem exceptBind_error {ε α β : Type} (e : ε) (f : α → Except ε β) :
    (Except.error e : Except ε α) >>= f = Except.error e := rfl

/-- Density value produced by `atm_density` with default units: `p / (R T)`
with `R = 1716`. -/
noncomputable def rho_of_z (z : ℝ) : ℝ := Real.exp (lnp_of_z z) / (1716 * temp_of_z z)

/-- With default units, `_update_alt` is the identity. -/
theorem _update_alt_ft (z : ℝ) : _update_alt z (PyVal.str "ft") = Except.ok z := by
  simp [_update_alt]

/-- With default units, `atm_temperature` returns `temp_of_z`. -/
theorem atm_temperature_ft (z : ℝ) : atm_temperature z "ft" "R" = Except.ok (temp_of_z z) := by
  norm_num [atm_temperature, _update_alt_ft, exceptBind_ok]

/-- With default units, `atm_pressure` returns `exp (lnp_of_z z)`. -/
theorem atm_pressure_ft (z : ℝ) : atm_pressure z "ft" "psf" = Except.ok (Real.exp (lnp_of_z z)) := by
  norm_num [atm_pressure, _update_alt_ft, exceptBind_ok, convert_pressure]

/-- With default units and the default gas constant, `atm_density` returns
`rho_of_z`. -/
theorem atm_density_ft (z : ℝ) :
    atm_density z 1716 "ft" "slug/ft^3" = Except.ok (rho_of_z z) := by
  simp [atm_density, _update_alt_ft, exceptBind_ok, atm_pressure_ft, atm_temperature_ft,
    convert_density, rho_of_z]

/-! ### Layer selection lemmas -/

theorem temp_of_z_eq1 {z : ℝ} (h : z < 36151.725) : temp_of_z z = temp_layer1 z := by
  simp [temp_of_z, h]

theorem temp_of_z_eq2 {z : ℝ} (h1 : 36151.725 ≤ z) (h2 : z < 82344.678) :
    temp_of_z z = temp_layer2 z := by
  simp [temp_of_z, not_lt.2 h1, h2]

theorem temp_of_z_eq3 {z : ℝ} (h1 : 82344.678 ≤ z) (h2 : z < 155347.756) :
    temp_of_z z = temp_layer3 z := by
  have n1 : ¬ z < 36151.725 := not_lt.2 (by linarith)
  simp [temp_of_z, n1, not_lt.2 h1, h2]

theorem temp_of_z_eq4 {z : ℝ} (h1 : 155347.756 ≤ z) (h2 : z < 175346.171) :
    temp_of_z z = temp_layer4 z := by
  have n1 : ¬ z < 36151.725 := not_lt.2 (by linarith)
  have n2 : ¬ z < 82344.678 := not_lt.2 (by linarith)
  simp [temp_of_z, n1, n2, not_lt.2 h1, h2]

theorem temp_of_z_eq5 {z : ℝ} (h1 : 175346.171 ≤ z) (h2 : z < 249000.304) :
    temp_of_z z = temp_layer5 z := by
  have n1 : ¬ z < 36151.725 := not_lt.2 (by linarith)
  have n2 : ¬ z < 82344.678 := not_lt.2 (by linarith)
  have n3 : ¬ z < 155347.756 := not_lt.2 (by linarith)
  simp [temp_of_z, n1, n2, n3, not_lt.2 h1, h2]

theorem temp_of_z_eq6 {z : ℝ} (h1 : 249000.304 ≤ z) (h2 : z < 299515.564) :
    temp_of_z z = temp_layer6 z := by
  have n1 : ¬ z < 36151.725 := not_lt.2 (by linarith)
  have n2 : ¬ z < 82344.678 := not_lt.2 (by linarith)
  have n3 : ¬ z < 155347.756 := not_lt.2 (by linarith)
  have n4 : ¬ z < 175346.171 := not_lt.2 (by linarith)
  simp [temp_of_z, n1, n2, n3, n4, not_lt.2 h1, h2]

theorem temp_of_z_eq7 {z : ℝ} (h1 : 299515.564 ≤ z) : temp_of_z z = 354.348 := by
  have n1 : ¬ z < 36151.725 := not_lt.2 (by linarith)
  have n2 : ¬ z < 82344.678 := not_lt.2 (by linarith)
  have n3 : ¬ z < 155347.756 := not_lt.2 (by linarith)
  have n4 : ¬ z < 175346.171 := not_lt.2 (by linarith)
  have n5 : ¬ z < 249000.304 := not_lt.2 (by linarith)
  simp [temp_of_z, n1, n2, n3, n4, n5, not_lt.2 h1]

theorem lnp_of_z_eq1 {z : ℝ} (h : z < 36151.725) : lnp_of_z z = lnp_layer1 z := by
  simp [lnp_of_z, h]

theorem lnp_of_z_eq2 {z : ℝ} (h1 : 36151.725 ≤ z) (h2 : z < 82344.678) :
    lnp_of_z z = lnp_layer2 z := by
  simp [lnp_of_z, not_lt.2 h1, h2]

theorem lnp_of_z_eq3 {z : ℝ} (h1 : 82344.678 ≤ z) (h2 : z < 155347.756) :
    lnp_of_z z = lnp_layer3 z := by
  have n1 : ¬ z < 36151.725 := not_lt.2 (by linarith)
  simp [lnp_of_z, n1, not_lt.2 h1, h2]

theorem lnp_of_z_eq4 {z : ℝ} (h1 : 155347.756 ≤ z) (h2 : z < 175346.171) :
    lnp_of_z z = lnp_layer4 z := by
  have n1 : ¬ z < 36151.725 := not_lt.2 (by linarith)
  have n2 : ¬ z < 82344.678 := not_lt.2 (by linarith)
  simp [lnp_of_z, n1, n2, not_lt.2 h1, h2]

theorem lnp_of_z_eq5 {z : ℝ} (h1 : 175346.171 ≤ z) (h2 : z < 249000.304) :
    lnp_of_z z = lnp_layer5 z := by
  have n1 : ¬ z < 36151.725 := not_lt.2 (by linarith)
  have n2 : ¬ z < 82344.678 := not_lt.2 (by linarith)
  have n3 : ¬ z < 155347.756 := not_lt.2 (by linarith)
  simp [lnp_of_z, n1, n2, n3, not_lt.2 h1, h2]

theorem lnp_of_z_eq6 {z : ℝ} (h1 : 249000.304 ≤ z) (h2 : z < 299515.564) :
    lnp_of_z z = lnp_layer6 z := by
  have n1 : ¬ z < 36151.725 := not_lt.2 (by linarith)
  have n2 : ¬ z < 82344.678 := not_lt.2 (by linarith)
  have n3 : ¬ z < 155347.756 := not_lt.2 (by linarith)
  have n4 : ¬ z < 175346.171 := not_lt.2 (by linarith)
  simp [lnp_of_z, n1, n2, n3, n4, not_lt.2 h1, h2]

theorem lnp_of_z_eq7 {z : ℝ} (h1 : 299515.564 ≤ z) : lnp_of_z z = lnp_layer6 z := by
  have n1 : ¬ z < 36151.725 := not_lt.2 (by linarith)
  have n2 : ¬ z < 82344.678 := not_lt.2 (by linarith)
  have n3 : ¬ z < 155347.756 := not_lt.2 (by linarith)
  have n4 : ¬ z < 175346.171 := not_lt.2 (by linarith)
  have n5 : ¬ z < 249000.304 := not_lt.2 (by linarith)
  simp [lnp_of_z, n1, n2, n3, n4, n5, not_lt.2 h1, lnp_layer6]

/-! ### Exponential and logarithm estimates -/

/-- Mean-value style bound: for `a ≤ b`, `exp b - exp a ≤ exp b * (b - a)`. -/
theorem exp_sub_exp_le_of_le {a b : ℝ} (h : a ≤ b) :
    Real.exp b - Real.exp a ≤ Real.exp b * (b - a) := by
  have h1 : (a - b) + 1 ≤ Real.exp (a - b) := by
    have := Real.add_one_le_exp (a - b); linarith
  have h2 : Real.exp b * ((a - b) + 1) ≤ Real.exp b * Real.exp (a - b) :=
    mul_le_mul_of_nonneg_left h1 (Real.exp_pos b).le
  have h3 : Real.exp b * Real.exp (a - b) = Real.exp a := by
    rw [← Real.exp_add]; ring_nf
  have h4 : Real.exp b * ((a - b) + 1) = Real.exp b - Real.exp b * (b - a) := by ring
  rw [h3, h4] at h2
  linarith

/-- Difference of exponentials bounded through a common upper bound on the
exponents. -/
theorem abs_exp_sub_exp_le {a b M B d : ℝ} (ha : a ≤ M) (hb : b ≤ M)
    (hB : Real.exp M ≤ B) (hd : |a - b| ≤ d) :
    |Real.exp a - Real.exp b| ≤ B * d := by
  have hd1 := abs_le.1 hd
  have hBnn : (0 : ℝ) ≤ B := le_trans (Real.exp_pos M).le hB
  rcases le_total a b with h | h
  · have key := exp_sub_exp_le_of_le h
    have hEb : Real.exp b ≤ B := le_trans (Real.exp_le_exp.mpr hb) hB
    have h1 : Real.exp b * (b - a) ≤ B * d :=
      mul_le_mul hEb (by linarith) (by linarith) hBnn
    have h2 : Real.exp a ≤ Real.exp b := Real.exp_le_exp.mpr h
    rw [abs_of_nonpos (by linarith)]
    linarith
  · have key := exp_sub_exp_le_of_le h
    have hEa : Real.exp a ≤ B := le_trans (Real.exp_le_exp.mpr ha) hB
    have h1 : Real.exp a * (a - b) ≤ B * d :=
      mul_le_mul hEa (by linarith) (by linarith) hBnn
    have h2 : Real.exp b ≤ Real.exp a := Real.exp_le_exp.mpr h
    rw [abs_of_nonneg (by linarith)]
    linarith

/-- Lower counterpart of `Real.log_le_sub_one_of_pos`. -/
theorem one_sub_inv_le_log {x : ℝ} (hx : 0 < x) : 1 - x⁻¹ ≤ Real.log x := by
  have h := Real.log_le_sub_one_of_pos (inv_pos.2 hx)
  rw [Real.log_inv] at h
  linarith

/-- Numeric upper bound `exp 6.1585 ≤ 472.72`. -/
theorem expUB_bp1 : Real.exp 6.1585 ≤ 472.72 := by
  have h6 : Real.exp (6 : ℝ) = Real.exp 1 ^ (6 : ℕ) := by
    rw [← Real.exp_nat_mul]; norm_num
  have h6b : Real.exp (6 : ℝ) ≤ 2.7182818286 ^ (6 : ℕ) := by
    rw [h6]
    exact pow_le_pow_left (Real.exp_pos 1).le Real.exp_one_lt_d9.le 6
  have hx : Real.exp (0.1585 : ℝ) ≤
      (∑ m ∈ Finset.range 8, (0.1585 : ℝ) ^ m / m.factorial) +
        (0.1585 : ℝ) ^ 8 * (8 + 1) / (Nat.factorial 8 * 8) :=
    Real.exp_bound' (by norm_num) (by norm_num) (by norm_num)
  have hsplit : Real.exp (6.1585 : ℝ) = Real.exp (6 : ℝ) * Real.exp (0.1585 : ℝ) := by
    rw [← Real.exp_add]; norm_num
  rw [hsplit]
  have hprod := mul_le_mul h6b hx (Real.exp_pos _).le (by positivity)
  refine le_trans hprod ?_
  simp only [Finset.sum_range_succ, Finset.sum_range_zero] at *
  norm_num [Nat.factorial]

/-- Numeric upper bound `exp 3.9508 ≤ 51.98`. -/
theorem expUB_bp2 : Real.exp 3.9508 ≤ 51.98 := by
  have h3 : Real.exp (3 : ℝ) = Real.exp 1 ^ (3 : ℕ) := by
    rw [← Real.exp_nat_mul]; norm_num
  have h3b : Real.exp (3 : ℝ) ≤ 2.7182818286 ^ (3 : ℕ) := by
    rw [h3]
    exact pow_le_pow_left (Real.exp_pos 1).le Real.exp_one_lt_d9.le 3
  have hx : Real.exp (0.9508 : ℝ) ≤
      (∑ m ∈ Finset.range 12, (0.9508 : ℝ) ^ m / m.factorial) +
        (0.9508 : ℝ) ^ 12 * (12 + 1) / (Nat.factorial 12 * 12) :=
    Real.exp_bound' (by norm_num) (by norm_num) (by norm_num)
  have hsplit : Real.exp (3.9508 : ℝ) = Real.exp (3 : ℝ) * Real.exp (0.9508 : ℝ) := by
    rw [← Real.exp_add]; norm_num
  rw [hsplit]
  have hprod := mul_le_mul h3b hx (Real.exp_pos _).le (by positivity)
  refine le_trans hprod ?_
  simp only [Finset.sum_range_succ, Finset.sum_range_zero] at *
  norm_num [Nat.factorial]

/-- Numeric upper bound `exp 0.9226 ≤ 2.516`. -/
theorem expUB_bp3 : Real.exp 0.9226 ≤ 2.516 := by
  have hx : Real.exp (0.9226 : ℝ) ≤
      (∑ m ∈ Finset.range 12, (0.9226 : ℝ) ^ m / m.factorial) +
        (0.9226 : ℝ) ^ 12 * (12 + 1) / (Nat.factorial 12 * 12) :=
    Real.exp_bound' (by norm_num) (by norm_num) (by norm_num)
  refine le_trans hx ?_
  simp only [Finset.sum_range_succ, Finset.sum_range_zero]
  norm_num [Nat.factorial]

/-- Numeric upper bound `exp 0.19725 ≤ 1.2181`. -/
theorem expUB_bp4 : Real.exp 0.19725 ≤ 1.2181 := by
  have hx : Real.exp (0.19725 : ℝ) ≤
      (∑ m ∈ Finset.range 10, (0.19725 : ℝ) ^ m / m.factorial) +
        (0.19725 : ℝ) ^ 10 * (10 + 1) / (Nat.factorial 10 * 10) :=
    Real.exp_bound' (by norm_num) (by norm_num) (by norm_num)
  refine le_trans hx ?_
  simp only [Finset.sum_range_succ, Finset.sum_range_zero]
  norm_num [Nat.factorial]

/-! ### Taylor-series bounds for the layer log-pressure values -/

/-- Two-sided bounds for `lnp_layer1` at the first breakpoint. -/
theorem lnp1_bp1_bounds :
    6.1584123 ≤ lnp_layer1 36151.725 ∧ lnp_layer1 36151.725 ≤ 6.1584127 := by
  unfold lnp_layer1
  have hx : |(6.8634634e-6 * 36151.725 : ℝ)| < 1 := by
    rw [abs_of_nonneg (by norm_num)]; norm_num
  have h := Real.abs_log_sub_add_sum_range_le hx 12
  rw [abs_le] at h
  obtain ⟨h1, h2⟩ := h
  rw [abs_of_nonneg (by norm_num : (0:ℝ) ≤ 6.8634634e-6 * 36151.725)] at h1 h2
  simp only [Finset.sum_range_succ, Finset.sum_range_zero] at h1 h2
  push_cast at h1 h2
  norm_num at h1 h2
  constructor <;> linarith

/-- Two-sided bounds for `lnp_layer3` at the third breakpoint. -/
theorem lnp3_bp3_bounds :
    0.9223384 ≤ lnp_layer3 155347.756 ∧ lnp_layer3 155347.756 ≤ 0.9225639 := by
  unfold lnp_layer3
  have e : (1.0 + 4.17276598e-6 * (155347.756 - 82344.678) : ℝ)
      = 1 - (-(4.17276598e-6 * (155347.756 - 82344.678))) := by ring
  rw [e]
  have hx : |(-(4.17276598e-6 * (155347.756 - 82344.678)) : ℝ)| < 1 := by
    rw [abs_of_nonpos (by norm_num)]; norm_num
  have h := Real.abs_log_sub_add_sum_range_le hx 9
  rw [abs_le] at h
  obtain ⟨h1, h2⟩ := h
  rw [abs_of_nonpos (by norm_num : (-(4.17276598e-6 * (155347.756 - 82344.678)) : ℝ) ≤ 0)]
    at h1 h2
  simp only [Finset.sum_range_succ, Finset.sum_range_zero] at h1 h2
  push_cast at h1 h2
  norm_num at h1 h2
  constructor <;> linarith

/-- Two-sided bounds for `lnp_layer5` at the fifth breakpoint. -/
theorem lnp5_bp5_bounds :
    -2.9720336 ≤ lnp_layer5 249000.304 ∧ lnp_layer5 249000.304 ≤ -2.9714832 := by
  unfold lnp_layer5
  have e : (1.0 - 4.12122002e-6 * (249000.304 - 175346.171) : ℝ)
      = 1 - (4.12122002e-6 * (249000.304 - 175346.171)) := by ring
  rw [e]
  have hx : |(4.12122002e-6 * (249000.304 - 175346.171) : ℝ)| < 1 := by
    rw [abs_of_nonneg (by norm_num)]; norm_num
  have h := Real.abs_log_sub_add_sum_range_le hx 8
  rw [abs_le] at h
  obtain ⟨h1, h2⟩ := h
  rw [abs_of_nonneg (by norm_num : (0:ℝ) ≤ 4.12122002e-6 * (249000.304 - 175346.171))] at h1 h2
  simp only [Finset.sum_range_succ, Finset.sum_range_zero] at h1 h2
  push_cast at h1 h2
  norm_num at h1 h2
  constructor <;> linarith

/-- Lower bound for `lnp_layer1` at the grid point 36000 ft. -/
theorem lnp1_36000_lb : 6.1643 ≤ lnp_layer1 36000 := by
  unfold lnp_layer1
  have hx : |(6.8634634e-6 * 36000 : ℝ)| < 1 := by
    rw [abs_of_nonneg (by norm_num)]; norm_num
  have h := Real.abs_log_sub_add_sum_range_le hx 5
  rw [abs_le] at h
  obtain ⟨h1, h2⟩ := h
  rw [abs_of_nonneg (by norm_num : (0:ℝ) ≤ 6.8634634e-6 * 36000)] at h1 h2
  simp only [Finset.sum_range_succ, Finset.sum_range_zero] at h1 h2
  push_cast at h1 h2
  norm_num at h1 h2
  linarith

/-- Lower bound for `lnp_layer3` at the grid point 155000 ft. -/
theorem lnp3_155000_lb : 0.9338 ≤ lnp_layer3 155000 := by
  unfold lnp_layer3
  have e : (1.0 + 4.17276598e-6 * (155000 - 82344.678) : ℝ)
      = 1 - (-(4.17276598e-6 * (155000 - 82344.678))) := by ring
  rw [e]
  have hx : |(-(4.17276598e-6 * (155000 - 82344.678)) : ℝ)| < 1 := by
    rw [abs_of_nonpos (by norm_num)]; norm_num
  have h := Real.abs_log_sub_add_sum_range_le hx 7
  rw [abs_le] at h
  obtain ⟨h1, h2⟩ := h
  rw [abs_of_nonpos (by norm_num : (-(4.17276598e-6 * (155000 - 82344.678)) : ℝ) ≤ 0)] at h1 h2
  simp only [Finset.sum_range_succ, Finset.sum_range_zero] at h1 h2
  push_cast at h1 h2
  norm_num at h1 h2
  linarith

/-- Lower bound for `lnp_layer5` at the grid point 249000 ft. -/
theorem lnp5_249000_lb : -2.9743532 ≤ lnp_layer5 249000 := by
  unfold lnp_layer5
  have e : (1.0 - 4.12122002e-6 * (249000 - 175346.171) : ℝ)
      = 1 - (4.12122002e-6 * (249000 - 175346.171)) := by ring
  rw [e]
  have hx : |(4.12122002e-6 * (249000 - 175346.171) : ℝ)| < 1 := by
    rw [abs_of_nonneg (by norm_num)]; norm_num
  have h := Real.abs_log_sub_add_sum_range_le hx 6
  rw [abs_le] at h
  obtain ⟨h1, h2⟩ := h
  rw [abs_of_nonneg (by norm_num : (0:ℝ) ≤ 4.12122002e-6 * (249000 - 175346.171))] at h1 h2
  simp only [Finset.sum_range_succ, Finset.sum_range_zero] at h1 h2
  push_cast at h1 h2
  norm_num at h1 h2
  linarith

/-- Upper bound for `lnp_layer5` at the grid point 176000 ft, via
`log x ≤ x - 1`. -/
theorem lnp5_176000_ub : lnp_layer5 176000 ≤ 0.17363 := by
  unfold lnp_layer5
  have harg : (0:ℝ) < 1.0 - 4.12122002e-6 * (176000 - 175346.171) := by norm_num
  have h := Real.log_le_sub_one_of_pos harg
  nlinarith [h]

/-- Upper bound for `lnp_layer3` at the grid point 83000 ft, via positivity of
the logarithm. -/
theorem lnp3_83000_ub : lnp_layer3 83000 < 3.950775 := by
  unfold lnp_layer3
  have harg : (1:ℝ) < 1.0 + 4.17276598e-6 * (83000 - 82344.678) := by norm_num
  have h := Real.log_pos harg
  nlinarith [h]

/-! ### Step lemmas for monotonic decrease over the 1000 ft sample grid -/

/-- Density comparison when the log-pressure drops by at least `s` and the
temperature grows by a factor less than `1 + s`. -/
theorem rho_step_aux {l1 l2 T1 T2 s : ℝ} (hs : 0 < s) (hl : l2 ≤ l1 - s)
    (hT1 : 0 < T1) (hT2 : 0 < T2) (hT : T1 < (1 + s) * T2) :
    Real.exp l2 / (1716 * T2) < Real.exp l1 / (1716 * T1) := by
  rw [div_lt_div_iff (by positivity) (by positivity)]
  have h1 : Real.exp l2 ≤ Real.exp (l1 - s) := Real.exp_le_exp.mpr hl
  have h2 : Real.exp (l1 - s) * Real.exp s = Real.exp l1 := by
    rw [← Real.exp_add]; ring_nf
  have h3 : s + 1 ≤ Real.exp s := Real.add_one_le_exp s
  have hp1 : (0:ℝ) < Real.exp (l1 - s) := Real.exp_pos _
  have key : Real.exp (l1 - s) * (1 + s) ≤ Real.exp l1 := by
    calc Real.exp (l1 - s) * (1 + s) ≤ Real.exp (l1 - s) * Real.exp s :=
          mul_le_mul_of_nonneg_left (by linarith) hp1.le
      _ = Real.exp l1 := h2
  have c1 : Real.exp l2 * T1 ≤ Real.exp (l1 - s) * T1 := mul_le_mul_of_nonneg_right h1 hT1.le
  have c2 : Real.exp (l1 - s) * T1 < Real.exp (l1 - s) * ((1 + s) * T2) :=
    mul_lt_mul_of_pos_left hT hp1
  have c3 : Real.exp (l1 - s) * ((1 + s) * T2) ≤ Real.exp l1 * T2 := by
    have h := mul_le_mul_of_nonneg_right key hT2.le
    have e : Real.exp (l1 - s) * ((1 + s) * T2) = Real.exp (l1 - s) * (1 + s) * T2 := by ring
    linarith [h, e.le, e.ge]
  have e1 : Real.exp l2 * (1716 * T1) = 1716 * (Real.exp l2 * T1) := by ring
  have e2 : Real.exp l1 * (1716 * T2) = 1716 * (Real.exp l1 * T2) := by ring
  rw [e1, e2]
  linarith

/-- Density comparison when the log-pressure strictly drops and the
temperature does not decrease. -/
theorem rho_step_mono {l1 l2 T1 T2 : ℝ} (hl : l2 < l1) (hT1 : 0 < T1) (hT12 : T1 ≤ T2) :
    Real.exp l2 / (1716 * T2) < Real.exp l1 / (1716 * T1) := by
  have hT2 : (0:ℝ) < T2 := lt_of_lt_of_le hT1 hT12
  rw [div_lt_div_iff (by positivity) (by positivity)]
  have hexp : Real.exp l2 < Real.exp l1 := Real.exp_lt_exp.mpr hl
  have c1 : Real.exp l2 * (1716 * T1) < Real.exp l1 * (1716 * T1) :=
    mul_lt_mul_of_pos_right hexp (by positivity)
  have c2 : Real.exp l1 * (1716 * T1) ≤ Real.exp l1 * (1716 * T2) := by
    have := mul_le_mul_of_nonneg_left (by linarith : (1716:ℝ) * T1 ≤ 1716 * T2)
      (Real.exp_pos l1).le
    linarith
  linarith

/-- One 1000 ft step inside layer 1 decreases both `lnp_of_z` (by at least
0.036) and `rho_of_z`. -/
theorem step_layer1 {z : ℝ} (h0 : 0 ≤ z) (h1 : z + 1000 < 36151.725) :
    lnp_of_z (z + 1000) ≤ lnp_of_z z - 0.036 ∧ rho_of_z (z + 1000) < rho_of_z z := by
  have hz1 : z < 36151.725 := by linarith
  have hA1pos : (0:ℝ) < 1 - 6.8634634e-6 * z := by linarith
  have hA2pos : (0:ℝ) < 1 - 6.8634634e-6 * (z + 1000) := by linarith
  have hA1le : (1:ℝ) - 6.8634634e-6 * z ≤ 1 := by linarith
  have hdiv : Real.log (1 - 6.8634634e-6 * (z + 1000)) - Real.log (1 - 6.8634634e-6 * z)
      = Real.log ((1 - 6.8634634e-6 * (z + 1000)) / (1 - 6.8634634e-6 * z)) :=
    (Real.log_div hA2pos.ne' hA1pos.ne').symm
  have hlog_le := Real.log_le_sub_one_of_pos (div_pos hA2pos hA1pos)
  have hsub : (1 - 6.8634634e-6 * (z + 1000)) / (1 - 6.8634634e-6 * z) - 1
      ≤ -0.0068634634 := by
    have e : (1 - 6.8634634e-6 * (z + 1000)) / (1 - 6.8634634e-6 * z) - 1
        = (-0.0068634634) / (1 - 6.8634634e-6 * z) := by
      field_simp
      ring
    rw [e, div_le_iff hA1pos]
    linarith
  have hlog : Real.log (1 - 6.8634634e-6 * (z + 1000))
      ≤ Real.log (1 - 6.8634634e-6 * z) - 0.0068634634 := by linarith
  have e1 : lnp_of_z z = lnp_layer1 z := lnp_of_z_eq1 hz1
  have e2 : lnp_of_z (z + 1000) = lnp_layer1 (z + 1000) := lnp_of_z_eq1 (by linarith)
  have hlnp : lnp_of_z (z + 1000) ≤ lnp_of_z z - 0.036 := by
    rw [e1, e2]; unfold lnp_layer1; linarith [hlog]
  refine ⟨hlnp, ?_⟩
  have t1 : temp_of_z z = temp_layer1 z := temp_of_z_eq1 hz1
  have t2 : temp_of_z (z + 1000) = temp_layer1 (z + 1000) := temp_of_z_eq1 (by linarith)
  have hT1pos : (0:ℝ) < temp_layer1 z := by unfold temp_layer1; linarith
  have hT2pos : (0:ℝ) < temp_layer1 (z + 1000) := by unfold temp_layer1; linarith
  have hTlt : temp_layer1 z < (1 + 0.036) * temp_layer1 (z + 1000) := by
    unfold temp_layer1; linarith
  unfold rho_of_z
  rw [t1, t2]
  exact rho_step_aux (by norm_num) hlnp hT1pos hT2pos hTlt

/-- One 1000 ft step inside layer 2. -/
theorem step_layer2 {z : ℝ} (h0 : 36151.725 ≤ z) (h1 : z + 1000 < 82344.678) :
    lnp_of_z (z + 1000) < lnp_of_z z ∧ rho_of_z (z + 1000) < rho_of_z z := by
  have e1 : lnp_of_z z = lnp_layer2 z := lnp_of_z_eq2 h0 (by linarith)
  have e2 : lnp_of_z (z + 1000) = lnp_layer2 (z + 1000) := lnp_of_z_eq2 (by linarith) h1
  have hl : lnp_of_z (z + 1000) < lnp_of_z z := by
    rw [e1, e2]; unfold lnp_layer2; linarith
  refine ⟨hl, ?_⟩
  have t1 : temp_of_z z = temp_layer2 z := temp_of_z_eq2 h0 (by linarith)
  have t2 : temp_of_z (z + 1000) = temp_layer2 (z + 1000) := temp_of_z_eq2 (by linarith) h1
  unfold rho_of_z
  rw [t1, t2]
  exact rho_step_mono hl (by unfold temp_layer2; norm_num) (by unfold temp_layer2; norm_num)

/-- One 1000 ft step inside layer 3. -/
theorem step_layer3 {z : ℝ} (h0 : 82344.678 ≤ z) (h1 : z + 1000 < 155347.756) :
    lnp_of_z (z + 1000) < lnp_of_z z ∧ rho_of_z (z + 1000) < rho_of_z z := by
  have e1 : lnp_of_z z = lnp_layer3 z := lnp_of_z_eq3 h0 (by linarith)
  have e2 : lnp_of_z (z + 1000) = lnp_layer3 (z + 1000) := lnp_of_z_eq3 (by linarith) h1
  have hA1pos : (0:ℝ) < 1.0 + 4.17276598e-6 * (z - 82344.678) := by linarith
  have hAlt : (1.0:ℝ) + 4.17276598e-6 * (z - 82344.678)
      < 1.0 + 4.17276598e-6 * (z + 1000 - 82344.678) := by linarith
  have hlog := Real.log_lt_log hA1pos hAlt
  have hl : lnp_of_z (z + 1000) < lnp_of_z z := by
    rw [e1, e2]; unfold lnp_layer3; linarith [hlog]
  refine ⟨hl, ?_⟩
  have t1 : temp_of_z z = temp_layer3 z := temp_of_z_eq3 h0 (by linarith)
  have t2 : temp_of_z (z + 1000) = temp_layer3 (z + 1000) := temp_of_z_eq3 (by linarith) h1
  unfold rho_of_z
  rw [t1, t2]
  exact rho_step_mono hl (by unfold temp_layer3; linarith) (by unfold temp_layer3; linarith)

/-- One 1000 ft step inside layer 4. -/
theorem step_layer4 {z : ℝ} (h0 : 155347.756 ≤ z) (h1 : z + 1000 < 175346.171) :
    lnp_of_z (z + 1000) < lnp_of_z z ∧ rho_of_z (z + 1000) < rho_of_z z := by
  have e1 : lnp_of_z z = lnp_layer4 z := lnp_of_z_eq4 h0 (by linarith)
  have e2 : lnp_of_z (z + 1000) = lnp_layer4 (z + 1000) := lnp_of_z_eq4 (by linarith) h1
  have hl : lnp_of_z (z + 1000) < lnp_of_z z := by
    rw [e1, e2]; unfold lnp_layer4; linarith
  refine ⟨hl, ?_⟩
  have t1 : temp_of_z z = temp_layer4 z := temp_of_z_eq4 h0 (by linarith)
  have t2 : temp_of_z (z + 1000) = temp_layer4 (z + 1000) := temp_of_z_eq4 (by linarith) h1
  unfold rho_of_z
  rw [t1, t2]
  exact rho_step_mono hl (by unfold temp_layer4; norm_num) (by unfold temp_layer4; norm_num)

/-- One 1000 ft step inside layer 5 decreases `lnp_of_z` by at least 0.036 and
decreases `rho_of_z`. -/
theorem step_layer5 {z : ℝ} (h0 : 175346.171 ≤ z) (h1 : z + 1000 < 249000.304) :
    lnp_of_z (z + 1000) ≤ lnp_of_z z - 0.036 ∧ rho_of_z (z + 1000) < rho_of_z z := by
  have hA1pos : (0:ℝ) < 1.0 - 4.12122002e-6 * (z - 175346.171) := by linarith
  have hA2pos : (0:ℝ) < 1.0 - 4.12122002e-6 * (z + 1000 - 175346.171) := by linarith
  have hA1le : (1.0:ℝ) - 4.12122002e-6 * (z - 175346.171) ≤ 1 := by linarith
  have hdiv : Real.log (1.0 - 4.12122002e-6 * (z + 1000 - 175346.171))
        - Real.log (1.0 - 4.12122002e-6 * (z - 175346.171))
      = Real.log ((1.0 - 4.12122002e-6 * (z + 1000 - 175346.171))
        / (1.0 - 4.12122002e-6 * (z - 175346.171))) :=
    (Real.log_div hA2pos.ne' hA1pos.ne').symm
  have hlog_le := Real.log_le_sub_one_of_pos (div_pos hA2pos hA1pos)
  have hsub : (1.0 - 4.12122002e-6 * (z + 1000 - 175346.171))
        / (1.0 - 4.12122002e-6 * (z - 175346.171)) - 1 ≤ -0.00412122002 := by
    have e : (1.0 - 4.12122002e-6 * (z + 1000 - 175346.171))
          / (1.0 - 4.12122002e-6 * (z - 175346.171)) - 1
        = (-0.00412122002) / (1.0 - 4.12122002e-6 * (z - 175346.171)) := by
      field_simp
      ring
    rw [e, div_le_iff hA1pos]
    linarith
  have hlog : Real.log (1.0 - 4.12122002e-6 * (z + 1000 - 175346.171))
      ≤ Real.log (1.0 - 4.12122002e-6 * (z - 175346.171)) - 0.00412122002 := by linarith
  have e1 : lnp_of_z z = lnp_layer5 z := lnp_of_z_eq5 h0 (by linarith)
  have e2 : lnp_of_z (z + 1000) = lnp_layer5 (z + 1000) := lnp_of_z_eq5 (by linarith) h1
  have hlnp : lnp_of_z (z + 1000) ≤ lnp_of_z z - 0.036 := by
    rw [e1, e2]; unfold lnp_layer5; linarith [hlog]
  refine ⟨hlnp, ?_⟩
  have t1 : temp_of_z z = temp_layer5 z := temp_of_z_eq5 h0 (by linarith)
  have t2 : temp_of_z (z + 1000) = temp_layer5 (z + 1000) := temp_of_z_eq5 (by linarith) h1
  have hT1pos : (0:ℝ) < temp_layer5 z := by unfold temp_layer5; linarith
  have hT2pos : (0:ℝ) < temp_layer5 (z + 1000) := by unfold temp_layer5; linarith
  have hTlt : temp_layer5 z < (1 + 0.036) * temp_layer5 (z + 1000) := by
    unfold temp_layer5; linarith
  unfold rho_of_z
  rw [t1, t2]
  exact rho_step_aux (by norm_num) hlnp hT1pos hT2pos hTlt

/-- Grid step across the first layer boundary (36000 to 37000 ft). -/
theorem step_cross1 : lnp_of_z 37000 < lnp_of_z 36000 ∧ rho_of_z 37000 < rho_of_z 36000 := by
  have e1 : lnp_of_z (36000:ℝ) = lnp_layer1 36000 := lnp_of_z_eq1 (by norm_num)
  have e2 : lnp_of_z (37000:ℝ) = lnp_layer2 37000 := lnp_of_z_eq2 (by norm_num) (by norm_num)
  have t1 : temp_of_z (36000:ℝ) = temp_layer1 36000 := temp_of_z_eq1 (by norm_num)
  have t2 : temp_of_z (37000:ℝ) = temp_layer2 37000 := temp_of_z_eq2 (by norm_num) (by norm_num)
  have hl : lnp_layer2 37000 < lnp_layer1 36000 := by
    have h := lnp1_36000_lb
    unfold lnp_layer2
    linarith [h]
  constructor
  · rw [e1, e2]; exact hl
  · unfold rho_of_z
    rw [e1, e2, t1, t2]
    exact rho_step_mono hl (by unfold temp_layer1; norm_num)
      (by unfold temp_layer1 temp_layer2; norm_num)

/-- Grid step across the second layer boundary (82000 to 83000 ft). -/
theorem step_cross2 : lnp_of_z 83000 < lnp_of_z 82000 ∧ rho_of_z 83000 < rho_of_z 82000 := by
  have e1 : lnp_of_z (82000:ℝ) = lnp_layer2 82000 := lnp_of_z_eq2 (by norm_num) (by norm_num)
  have e2 : lnp_of_z (83000:ℝ) = lnp_layer3 83000 := lnp_of_z_eq3 (by norm_num) (by norm_num)
  have t1 : temp_of_z (82000:ℝ) = temp_layer2 82000 := temp_of_z_eq2 (by norm_num) (by norm_num)
  have t2 : temp_of_z (83000:ℝ) = temp_layer3 83000 := temp_of_z_eq3 (by norm_num) (by norm_num)
  have hl : lnp_layer3 83000 < lnp_layer2 82000 := by
    have h := lnp3_83000_ub
    unfold lnp_layer2
    linarith [h]
  constructor
  · rw [e1, e2]; exact hl
  · unfold rho_of_z
    rw [e1, e2, t1, t2]
    exact rho_step_mono hl (by unfold temp_layer2; norm_num)
      (by unfold temp_layer2 temp_layer3; norm_num)

/-- Grid step across the third layer boundary (155000 to 156000 ft). -/
theorem step_cross3 : lnp_of_z 156000 < lnp_of_z 155000 ∧ rho_of_z 156000 < rho_of_z 155000 := by
  have e1 : lnp_of_z (155000:ℝ) = lnp_layer3 155000 := lnp_of_z_eq3 (by norm_num) (by norm_num)
  have e2 : lnp_of_z (156000:ℝ) = lnp_layer4 156000 := lnp_of_z_eq4 (by norm_num) (by norm_num)
  have t1 : temp_of_z (155000:ℝ) = temp_layer3 155000 := temp_of_z_eq3 (by norm_num) (by norm_num)
  have t2 : temp_of_z (156000:ℝ) = temp_layer4 156000 := temp_of_z_eq4 (by norm_num) (by norm_num)
  have hl : lnp_layer4 156000 < lnp_layer3 155000 := by
    have h := lnp3_155000_lb
    unfold lnp_layer4
    linarith [h]
  constructor
  · rw [e1, e2]; exact hl
  · unfold rho_of_z
    rw [e1, e2, t1, t2]
    exact rho_step_mono hl (by unfold temp_layer3; norm_num)
      (by unfold temp_layer3 temp_layer4; norm_num)

/-- Grid step across the fourth layer boundary (175000 to 176000 ft). -/
theorem step_cross4 : lnp_of_z 176000 < lnp_of_z 175000 ∧ rho_of_z 176000 < rho_of_z 175000 := by
  have e1 : lnp_of_z (175000:ℝ) = lnp_layer4 175000 := lnp_of_z_eq4 (by norm_num) (by norm_num)
  have e2 : lnp_of_z (176000:ℝ) = lnp_layer5 176000 := lnp_of_z_eq5 (by norm_num) (by norm_num)
  have t1 : temp_of_z (175000:ℝ) = temp_layer4 175000 := temp_of_z_eq4 (by norm_num) (by norm_num)
  have t2 : temp_of_z (176000:ℝ) = temp_layer5 176000 := temp_of_z_eq5 (by norm_num) (by norm_num)
  have hlnp : lnp_layer5 176000 ≤ lnp_layer4 175000 - 0.036 := by
    have h := lnp5_176000_ub
    unfold lnp_layer4
    linarith [h]
  constructor
  · rw [e1, e2]; linarith [hlnp]
  · unfold rho_of_z
    rw [e1, e2, t1, t2]
    exact rho_step_aux (by norm_num) hlnp (by unfold temp_layer4; norm_num)
      (by unfold temp_layer5; norm_num) (by unfold temp_layer4 temp_layer5; norm_num)

/-- Grid step across the fifth layer boundary (249000 to 250000 ft). -/
theorem step_cross5 : lnp_of_z 250000 < lnp_of_z 249000 ∧ rho_of_z 250000 < rho_of_z 249000 := by
  have e1 : lnp_of_z (249000:ℝ) = lnp_layer5 249000 := lnp_of_z_eq5 (by norm_num) (by norm_num)
  have e2 : lnp_of_z (250000:ℝ) = lnp_layer6 250000 := lnp_of_z_eq6 (by norm_num) (by norm_num)
  have t1 : temp_of_z (249000:ℝ) = temp_layer5 249000 := temp_of_z_eq5 (by norm_num) (by norm_num)
  have t2 : temp_of_z (250000:ℝ) = temp_layer6 250000 := temp_of_z_eq6 (by norm_num) (by norm_num)
  have hlnp : lnp_layer6 250000 ≤ lnp_layer5 249000 - 0.036 := by
    have h := lnp5_249000_lb
    unfold lnp_layer6
    linarith [h]
  constructor
  · rw [e1, e2]; linarith [hlnp]
  · unfold rho_of_z
    rw [e1, e2, t1, t2]
    exact rho_step_aux (by norm_num) hlnp (by unfold temp_layer5; norm_num)
      (by unfold temp_layer6; norm_num) (by unfold temp_layer5 temp_layer6; norm_num)

/-- C8: over the altitude samples 0, 1000, ..., 250000 ft (in default units),
`atm_pressure` and `atm_density` are strictly decreasing: at every consecutive
pair of samples both return `Except.ok` of the modelled value, and the value at
the higher altitude is strictly smaller. -/
theorem claim_C8_monotonic_decrease (k : ℕ) (hk : k < 250) :
    atm_pressure (1000 * (k : ℝ)) "ft" "psf"
        = Except.ok (Real.exp (lnp_of_z (1000 * (k : ℝ)))) ∧
      atm_density (1000 * (k : ℝ)) 1716 "ft" "slug/ft^3"
        = Except.ok (rho_of_z (1000 * (k : ℝ))) ∧
      Real.exp (lnp_of_z (1000 * (k : ℝ) + 1000)) < Real.exp (lnp_of_z (1000 * (k : ℝ))) ∧
      rho_of_z (1000 * (k : ℝ) + 1000) < rho_of_z (1000 * (k : ℝ)) := by
  refine ⟨atm_pressure_ft _, atm_density_ft _, ?_⟩
  suffices h : lnp_of_z (1000 * (k : ℝ) + 1000) < lnp_of_z (1000 * (k : ℝ)) ∧
      rho_of_z (1000 * (k : ℝ) + 1000) < rho_of_z (1000 * (k : ℝ)) by
    exact ⟨Real.exp_lt_exp.mpr h.1, h.2⟩
  rcases (show k ≤ 35 ∨ k = 36 ∨ (37 ≤ k ∧ k ≤ 81) ∨ k = 82 ∨ (83 ≤ k ∧ k ≤ 154) ∨
      k = 155 ∨ (156 ≤ k ∧ k ≤ 174) ∨ k = 175 ∨ (176 ≤ k ∧ k ≤ 248) ∨ k = 249 from
      by omega) with hc | hc | hc | hc | hc | hc | hc | hc | hc | hc
  · have hkr : (k : ℝ) ≤ 35 := by exact_mod_cast hc
    have h := step_layer1 (by positivity : (0:ℝ) ≤ 1000 * (k : ℝ)) (by linarith)
    exact ⟨by linarith [h.1], h.2⟩
  · subst hc
    have e1 : (1000 * ((36 : ℕ) : ℝ) : ℝ) = 36000 := by norm_num
    have e2 : (36000 + 1000 : ℝ) = 37000 := by norm_num
    rw [e1, e2]
    exact step_cross1
  · have hl : (37 : ℝ) ≤ (k : ℝ) := by exact_mod_cast hc.1
    have hu : (k : ℝ) ≤ 81 := by exact_mod_cast hc.2
    exact step_layer2 (by linarith) (by linarith)
  · subst hc
    have e1 : (1000 * ((82 : ℕ) : ℝ) : ℝ) = 82000 := by norm_num
    have e2 : (82000 + 1000 : ℝ) = 83000 := by norm_num
    rw [e1, e2]
    exact step_cross2
  · have hl : (83 : ℝ) ≤ (k : ℝ) := by exact_mod_cast hc.1
    have hu : (k : ℝ) ≤ 154 := by exact_mod_cast hc.2
    exact step_layer3 (by linarith) (by linarith)
  · subst hc
    have e1 : (1000 * ((155 : ℕ) : ℝ) : ℝ) = 155000 := by norm_num
    have e2 : (155000 + 1000 : ℝ) = 156000 := by norm_num
    rw [e1, e2]
    exact step_cross3
  · have hl : (156 : ℝ) ≤ (k : ℝ) := by exact_mod_cast hc.1
    have hu : (k : ℝ) ≤ 174 := by exact_mod_cast hc.2
    exact step_layer4 (by linarith) (by linarith)
  · subst hc
    have e1 : (1000 * ((175 : ℕ) : ℝ) : ℝ) = 175000 := by norm_num
    have e2 : (175000 + 1000 : ℝ) = 176000 := by norm_num
    rw [e1, e2]
    exact step_cross4
  · have hl : (176 : ℝ) ≤ (k : ℝ) := by exact_mod_cast hc.1
    have hu : (k : ℝ) ≤ 248 := by exact_mod_cast hc.2
    have h := step_layer5 (show (175346.171:ℝ) ≤ 1000 * (k : ℝ) by linarith) (by linarith)
    exact ⟨by linarith [h.1], h.2⟩
  · subst hc
    have e1 : (1000 * ((249 : ℕ) : ℝ) : ℝ) = 249000 := by norm_num
    have e2 : (249000 + 1000 : ℝ) = 250000 := by norm_num
    rw [e1, e2]
    exact step_cross5

/-- Witness for C8 at the first sample pair (0 ft and 1000 ft). -/
theorem claim_C8_witness :
    Real.exp (lnp_of_z (1000 * ((0 : ℕ) : ℝ) + 1000)) < Real.exp (lnp_of_z (1000 * ((0 : ℕ) : ℝ)))
      ∧ rho_of_z (1000 * ((0 : ℕ) : ℝ) + 1000) < rho_of_z (1000 * ((0 : ℕ) : ℝ)) :=
  ⟨(claim_C8_monotonic_decrease 0 (by norm_num)).2.2.1,
    (claim_C8_monotonic_decrease 0 (by norm_num)).2.2.2⟩

/-! ### Pressure continuity at the layer breakpoints -/

/-- Pressure continuity at the first breakpoint. -/
theorem cont_p1 : |Real.exp (lnp_layer1 36151.725) - Real.exp (lnp_layer2 36151.725)| < 1e-3 := by
  have hb := lnp1_bp1_bounds
  have hval : lnp_layer2 (36151.725 : ℝ) = 6.158411 := by unfold lnp_layer2; norm_num
  rw [hval]
  have habs : |lnp_layer1 36151.725 - 6.158411| ≤ 1.7e-6 := by
    rw [abs_le]; constructor <;> linarith [hb.1, hb.2]
  have h := abs_exp_sub_exp_le (show lnp_layer1 36151.725 ≤ 6.1585 by linarith [hb.2])
    (show (6.158411 : ℝ) ≤ 6.1585 by norm_num) expUB_bp1 habs
  calc |Real.exp (lnp_layer1 36151.725) - Real.exp 6.158411| ≤ 472.72 * 1.7e-6 := h
    _ < 1e-3 := by norm_num

/-- Pressure continuity at the second breakpoint. -/
theorem cont_p2 : |Real.exp (lnp_layer2 82344.678) - Real.exp (lnp_layer3 82344.678)| < 1e-3 := by
  have hval : lnp_layer3 (82344.678 : ℝ) = 3.950775 := by
    unfold lnp_layer3
    norm_num
  rw [hval]
  have habs : |lnp_layer2 82344.678 - 3.950775| ≤ 3.4e-6 := by
    unfold lnp_layer2
    rw [abs_le]; constructor <;> norm_num
  have ha : lnp_layer2 82344.678 ≤ 3.9508 := by unfold lnp_layer2; norm_num
  have h := abs_exp_sub_exp_le ha (show (3.950775 : ℝ) ≤ 3.9508 by norm_num) expUB_bp2 habs
  calc |Real.exp (lnp_layer2 82344.678) - Real.exp 3.950775| ≤ 51.98 * 3.4e-6 := h
    _ < 1e-3 := by norm_num

/-- Pressure continuity at the third breakpoint. -/
theorem cont_p3 : |Real.exp (lnp_layer3 155347.756) - Real.exp (lnp_layer4 155347.756)| < 1e-3 := by
  have hb := lnp3_bp3_bounds
  have hval : lnp_layer4 (155347.756 : ℝ) = 0.922461 := by unfold lnp_layer4; norm_num
  rw [hval]
  have habs : |lnp_layer3 155347.756 - 0.922461| ≤ 1.23e-4 := by
    rw [abs_le]; constructor <;> linarith [hb.1, hb.2]
  have h := abs_exp_sub_exp_le (show lnp_layer3 155347.756 ≤ 0.9226 by linarith [hb.2])
    (show (0.922461 : ℝ) ≤ 0.9226 by norm_num) expUB_bp3 habs
  calc |Real.exp (lnp_layer3 155347.756) - Real.exp 0.922461| ≤ 2.516 * 1.23e-4 := h
    _ < 1e-3 := by norm_num

/-- Pressure continuity at the fourth breakpoint. -/
theorem cont_p4 : |Real.exp (lnp_layer4 175346.171) - Real.exp (lnp_layer5 175346.171)| < 1e-3 := by
  have hval : lnp_layer5 (175346.171 : ℝ) = 0.197235 := by
    unfold lnp_layer5
    norm_num
  rw [hval]
  have habs : |lnp_layer4 175346.171 - 0.197235| ≤ 1.28e-5 := by
    unfold lnp_layer4
    rw [abs_le]; constructor <;> norm_num
  have ha : lnp_layer4 175346.171 ≤ 0.19725 := by unfold lnp_layer4; norm_num
  have h := abs_exp_sub_exp_le ha (show (0.197235 : ℝ) ≤ 0.19725 by norm_num) expUB_bp4 habs
  calc |Real.exp (lnp_layer4 175346.171) - Real.exp 0.197235| ≤ 1.2181 * 1.28e-5 := h
    _ < 1e-3 := by norm_num

/-- Pressure continuity at the fifth breakpoint. -/
theorem cont_p5 : |Real.exp (lnp_layer5 249000.304) - Real.exp (lnp_layer6 249000.304)| < 1e-3 := by
  have hb := lnp5_bp5_bounds
  have hval : lnp_layer6 (249000.304 : ℝ) = -2.971785 := by unfold lnp_layer6; norm_num
  rw [hval]
  have habs : |lnp_layer5 249000.304 - -2.971785| ≤ 3.1e-4 := by
    rw [abs_le]; constructor <;> linarith [hb.1, hb.2]
  have hB : Real.exp (0 : ℝ) ≤ 1 := by rw [Real.exp_zero]
  have h := abs_exp_sub_exp_le (show lnp_layer5 249000.304 ≤ 0 by linarith [hb.2])
    (show (-2.971785 : ℝ) ≤ 0 by norm_num) hB habs
  calc |Real.exp (lnp_layer5 249000.304) - Real.exp (-2.971785)| ≤ 1 * 3.1e-4 := h
    _ < 1e-3 := by norm_num

/-- C2 (amended): at each of the six layer breakpoints, `atm_pressure`
evaluates the upper layer's closed form, and the two adjacent pressure
expressions agree to within `1e-3` psf; `atm_temperature` likewise evaluates
the upper layer's form, and the adjacent temperature expressions agree to
within `1e-3` degrees Rankine at the five upper breakpoints — but not at the
first breakpoint (see the counterexample). -/
theorem claim_C2_layer_continuity_amended :
    (atm_pressure 36151.725 "ft" "psf" = Except.ok (Real.exp (lnp_layer2 36151.725)) ∧
      |Real.exp (lnp_layer1 36151.725) - Real.exp (lnp_layer2 36151.725)| < 1e-3) ∧
    (atm_pressure 82344.678 "ft" "psf" = Except.ok (Real.exp (lnp_layer3 82344.678)) ∧
      |Real.exp (lnp_layer2 82344.678) - Real.exp (lnp_layer3 82344.678)| < 1e-3) ∧
    (atm_pressure 155347.756 "ft" "psf" = Except.ok (Real.exp (lnp_layer4 155347.756)) ∧
      |Real.exp (lnp_layer3 155347.756) - Real.exp (lnp_layer4 155347.756)| < 1e-3) ∧
    (atm_pressure 175346.171 "ft" "psf" = Except.ok (Real.exp (lnp_layer5 175346.171)) ∧
      |Real.exp (lnp_layer4 175346.171) - Real.exp (lnp_layer5 175346.171)| < 1e-3) ∧
    (atm_pressure 249000.304 "ft" "psf" = Except.ok (Real.exp (lnp_layer6 249000.304)) ∧
      |Real.exp (lnp_layer5 249000.304) - Real.exp (lnp_layer6 249000.304)| < 1e-3) ∧
    (atm_pressure 299515.564 "ft" "psf" = Except.ok (Real.exp (lnp_layer6 299515.564)) ∧
      |Real.exp (lnp_layer6 299515.564) - Real.exp (lnp_layer6 299515.564)| < 1e-3) ∧
    (atm_temperature 82344.678 "ft" "R" = Except.ok (temp_layer3 82344.678) ∧
      |temp_layer2 82344.678 - temp_layer3 82344.678| < 1e-3) ∧
    (atm_temperature 155347.756 "ft" "R" = Except.ok (temp_layer4 155347.756) ∧
      |temp_layer3 155347.756 - temp_layer4 155347.756| < 1e-3) ∧
    (atm_temperature 175346.171 "ft" "R" = Except.ok (temp_layer5 175346.171) ∧
      |temp_layer4 175346.171 - temp_layer5 175346.171| < 1e-3) ∧
    (atm_temperature 249000.304 "ft" "R" = Except.ok (temp_layer6 249000.304) ∧
      |temp_layer5 249000.304 - temp_layer6 249000.304| < 1e-3) ∧
    (atm_temperature 299515.564 "ft" "R" = Except.ok (temp_layer6 299515.564) ∧
      |temp_layer6 299515.564 - 354.348| < 1e-3) := by
  refine ⟨⟨?_, cont_p1⟩, ⟨?_, cont_p2⟩, ⟨?_, cont_p3⟩, ⟨?_, cont_p4⟩, ⟨?_, cont_p5⟩,
    ⟨?_, ?_⟩, ⟨?_, ?_⟩, ⟨?_, ?_⟩, ⟨?_, ?_⟩, ⟨?_, ?_⟩, ⟨?_, ?_⟩⟩
  · rw [atm_pressure_ft, lnp_of_z_eq2 le_rfl (by norm_num)]
  · rw [atm_pressure_ft, lnp_of_z_eq3 le_rfl (by norm_num)]
  · rw [atm_pressure_ft, lnp_of_z_eq4 le_rfl (by norm_num)]
  · rw [atm_pressure_ft, lnp_of_z_eq5 le_rfl (by norm_num)]
  · rw [atm_pressure_ft, lnp_of_z_eq6 le_rfl (by norm_num)]
  · rw [atm_pressure_ft, lnp_of_z_eq7 le_rfl]
  · rw [abs_sub_lt_iff]; unfold lnp_layer6; norm_num
  · rw [atm_temperature_ft, temp_of_z_eq3 le_rfl (by norm_num)]
  · rw [abs_sub_lt_iff]; unfold temp_layer2 temp_layer3; constructor <;> norm_num
  · rw [atm_temperature_ft, temp_of_z_eq4 le_rfl (by norm_num)]
  · rw [abs_sub_lt_iff]; unfold temp_layer3 temp_layer4; constructor <;> norm_num
  · rw [atm_temperature_ft, temp_of_z_eq5 le_rfl (by norm_num)]
  · rw [abs_sub_lt_iff]; unfold temp_layer4 temp_layer5; constructor <;> norm_num
  · rw [atm_temperature_ft, temp_of_z_eq6 le_rfl (by norm_num)]
  · rw [abs_sub_lt_iff]; unfold temp_layer5 temp_layer6; constructor <;> norm_num
  · have h : temp_of_z (299515.564 : ℝ) = 354.348 := temp_of_z_eq7 le_rfl
    rw [atm_temperature_ft, h]; unfold temp_layer6; rfl
  · rw [abs_sub_lt_iff]; unfold temp_layer6; constructor <;> norm_num

/-- C2 counterexample: at the first breakpoint (36151.725 ft) the two adjacent
temperature expressions differ by about 0.688 degrees Rankine, far above the
1e-3 tolerance, so the claimed temperature continuity fails there. -/
theorem claim_C2_counterexample :
    1e-3 < |temp_layer1 36151.725 - temp_layer2 36151.725| ∧
      atm_temperature 36151.725 "ft" "R" = Except.ok (temp_layer2 36151.725) := by
  constructor
  · unfold temp_layer1 temp_layer2
    rw [abs_of_nonpos (by norm_num)]
    norm_num
  · rw [atm_temperature_ft, temp_of_z_eq2 le_rfl (by norm_num)]

/-- Helper: with default units, `atm_dynamic_viscosity_mu` returns the raw
Sutherland viscosity. -/
theorem atm_dynamic_viscosity_mu_ft (z : ℝ) :
    atm_dynamic_viscosity_mu z "ft" "(lbf*s)/ft^2"
      = Except.ok ((sutherland_viscoscity (temp_of_z z)).1) := by
  norm_num [atm_dynamic_viscosity_mu, _update_alt_ft, exceptBind_ok, atm_temperature_ft]

/-- C1: `atm_unit_reynolds_number` passes the boolean `SI` flag as the
`alt_units` argument of `_update_alt`, so every call raises the
invalid-unit error instead of returning a Reynolds number. -/
theorem claim_C1_unit_reynolds_number_always_raises (alt mach : ℝ) (SI : Bool) :
    atm_unit_reynolds_number alt mach SI
      = Except.error (AtmError.invalidUnit "alt_units" (PyVal.bool SI) ["ft", "m", "kft"]) := by
  cases SI <;> rfl

/-- C5: above the top breakpoint both profile functions evaluate the final
layer's formula, and for negative altitudes both evaluate the lowest layer's
formula; neither raises. -/
theorem claim_C5_extrapolation_total (z : ℝ) :
    (299515.564 ≤ z →
      atm_temperature z "ft" "R" = Except.ok 354.348 ∧
      atm_pressure z "ft" "psf"
        = Except.ok (Real.exp (-2.971785 - 5.1533546650e-5 * (z - 249000.304)))) ∧
    (z < 0 →
      atm_temperature z "ft" "R" = Except.ok (518.0 - 0.003559996 * z) ∧
      atm_pressure z "ft" "psf"
        = Except.ok (Real.exp (7.657389 + 5.2561258 * Real.log (1 - 6.8634634e-6 * z)))) := by
  constructor
  · intro h
    refine ⟨?_, ?_⟩
    · rw [atm_temperature_ft, temp_of_z_eq7 h]
    · rw [atm_pressure_ft, lnp_of_z_eq7 h]
      simp [lnp_layer6]
  · intro h
    have h1 : z < 36151.725 := by linarith
    refine ⟨?_, ?_⟩
    · rw [atm_temperature_ft, temp_of_z_eq1 h1]
      simp [temp_layer1]
    · rw [atm_pressure_ft, lnp_of_z_eq1 h1]
      simp [lnp_layer1]

/-- Witness for C5 at 300000 ft and -1000 ft. -/
theorem claim_C5_witness :
    (atm_temperature 300000 "ft" "R" = Except.ok 354.348 ∧
      atm_pressure 300000 "ft" "psf"
        = Except.ok (Real.exp (-2.971785 - 5.1533546650e-5 * (300000 - 249000.304)))) ∧
    (atm_temperature (-1000) "ft" "R" = Except.ok (518.0 - 0.003559996 * (-1000)) ∧
      atm_pressure (-1000) "ft" "psf"
        = Except.ok (Real.exp (7.657389 + 5.2561258 * Real.log (1 - 6.8634634e-6 * (-1000))))) :=
  ⟨(claim_C5_extrapolation_total 300000).1 (by norm_num),
    (claim_C5_extrapolation_total (-1000)).2 (by norm_num)⟩

/-- C6: `get_alt_for_q_mach` converts the dynamic pressure to a static
pressure `2 q / (1.4 mach²)` and delegates to `get_alt_for_pressure` with the
unit tokens selected by the `SI` flag. -/
theorem claim_C6_q_mach_reduces_to_pressure (q mach : ℝ) (SI : Bool) (h : mach ≠ 0) :
    get_alt_for_q_mach q mach SI
      = get_alt_for_pressure (2 * q / (1.4 * mach ^ (2 : ℕ)))
          (if SI then "Pa" else "psf") (if SI then "m" else "ft") := by
  cases SI <;> rfl

/-- Witness for C6 at `q = 100`, `mach = 0.8`, `SI = false`. -/
theorem claim_C6_witness :
    get_alt_for_q_mach 100 0.8 false
      = get_alt_for_pressure (2 * 100 / (1.4 * (0.8 : ℝ) ^ (2 : ℕ)))
          (if false then "Pa" else "psf") (if false then "m" else "ft") :=
  claim_C6_q_mach_reduces_to_pressure 100 0.8 false (by norm_num)

/-- C9: Sutherland's law uses the linear branch below 225 R and the
power-law branch otherwise; above 5400 R the warning flag is set but the
returned value is still the power-law branch value, and no error is
possible. -/
theorem claim_C9_sutherland (T : ℝ) :
    (T < 225 → sutherland_viscoscity T = (8.0382436e-10 * T, false)) ∧
    (¬ T < 225 → (sutherland_viscoscity T).1 = 2.27e-8 * T ^ (1.5 : ℝ) / (T + 198.6)) ∧
    (T > 5400 → sutherland_viscoscity T = (2.27e-8 * T ^ (1.5 : ℝ) / (T + 198.6), true)) := by
  refine ⟨fun h => by simp [sutherland_viscoscity, h], fun h => by simp [sutherland_viscoscity, h],
    fun h => ?_⟩
  have h1 : ¬ T < 225 := by push_neg; linarith
  simp [sutherland_viscoscity, h1, h]

/-- Witness for C9 at 200 R (linear branch) and 6000 R (warning branch). -/
theorem claim_C9_witness :
    sutherland_viscoscity 200 = (8.0382436e-10 * 200, false) ∧
      sutherland_viscoscity 6000 = (2.27e-8 * (6000 : ℝ) ^ (1.5 : ℝ) / (6000 + 198.6), true) :=
  ⟨(claim_C9_sutherland 200).1 (by norm_num), (claim_C9_sutherland 6000).2.2 (by norm_num)⟩

/-- C10: with `alt_units = "ft"`, requesting the kinematic viscosity in
`m^2/s` applies the factor `_feet_to_alt_units("ft")^2 = 1`, so the result is
identical to the `ft^2/s` result. -/
theorem claim_C10_kinematic_viscosity_ignores_SI_output (alt : ℝ) :
    atm_kinematic_viscosity_nu alt "ft" "m^2/s" = atm_kinematic_viscosity_nu alt "ft" "ft^2/s" := by
  have h2 : ¬ ("ft" : String) = "m" := by decide
  norm_num [atm_kinematic_viscosity_nu, _update_alt_ft, exceptBind_ok, atm_density_ft,
    atm_dynamic_viscosity_mu_ft, _feet_to_alt_units, h2]

/-- C3 counterexample: when the input and output tokens are the same
unsupported string, the early equal-units return bypasses validation and the
function returns the value instead of raising. -/
theorem claim_C3_counterexample : convert_pressure 1 "bar" "bar" = Except.ok 1 := rfl

/-- C3 (amended): for every conversion entry point, an unsupported unit token
raises the invalid-unit error (naming the parameter and the token) whenever
the input and output tokens differ; with equal tokens the value is returned
unchanged even when the token is unsupported. -/
theorem claim_C3_invalid_unit_amended :
    (∀ (x : ℝ) (u v : String), u ∉ (["ft", "m", "kft"] : List String) → u ≠ v →
      convert_altitude x u v
        = Except.error (AtmError.invalidUnit "alt_units_in" (PyVal.str u) ["ft", "m", "kft"])) ∧
    (∀ (x : ℝ) (u v : String), u ∈ (["ft", "m", "kft"] : List String) →
      v ∉ (["ft", "m", "kft"] : List String) →
      convert_altitude x u v
        = Except.error (AtmError.invalidUnit "alt_units_out" (PyVal.str v) ["ft", "m", "kft"])) ∧
    (∀ (x : ℝ) (u v : String), u ∉ (["ft/s", "m/s", "in/s", "knots"] : List String) → u ≠ v →
      convert_velocity x u v
        = Except.error (AtmError.invalidUnit "velocity_units_in" (PyVal.str u)
            ["ft/s", "m/s", "knots"])) ∧
    (∀ (x : ℝ) (u v : String), u ∈ (["ft/s", "m/s", "in/s", "knots"] : List String) →
      v ∉ (["ft/s", "m/s", "in/s", "knots"] : List String) →
      convert_velocity x u v
        = Except.error (AtmError.invalidUnit "velocity_units_out" (PyVal.str v)
            ["ft/s", "m/s", "in/s", "knots"])) ∧
    (∀ (x : ℝ) (u v : String), u ∉ (["psf", "psi", "Pa"] : List String) → u ≠ v →
      convert_pressure x u v
        = Except.error (AtmError.invalidUnit "pressure_units_in" (PyVal.str u)
            ["psf", "psi", "Pa"])) ∧
    (∀ (x : ℝ) (u v : String), u ∈ (["psf", "psi", "Pa"] : List String) →
      v ∉ (["psf", "psi", "Pa"] : List String) →
      convert_pressure x u v
        = Except.error (AtmError.invalidUnit "pressure_units_out" (PyVal.str v)
            ["psf", "psi", "Pa"])) ∧
    (∀ (x : ℝ) (u v : String), u ∉ (["slug/ft^3", "slinch/in^3", "kg/m^3"] : List String) →
      u ≠ v →
      convert_density x u v
        = Except.error (AtmError.invalidUnit "density_units_in" (PyVal.str u) ["slug/ft^3"])) ∧
    (∀ (x : ℝ) (u v : String), u ∈ (["slug/ft^3", "slinch/in^3", "kg/m^3"] : List String) →
      v ∉ (["slug/ft^3", "slinch/in^3", "kg/m^3"] : List String) →
      convert_density x u v
        = Except.error (AtmError.invalidUnit "density_units_out" (PyVal.str v)
            ["slug/ft^3", "slinch/in^3"])) ∧
    (∀ (x : ℝ) (u : String), convert_altitude x u u = Except.ok x ∧
      convert_velocity x u u = Except.ok x ∧ convert_pressure x u u = Except.ok x ∧
      convert_density x u u = Except.ok x) := by
  refine ⟨?_, ?_, ?_, ?_, ?_, ?_, ?_, ?_, ?_⟩
  · intro x u v hu huv
    simp only [List.mem_cons, List.not_mem_nil, or_false, not_or] at hu
    obtain ⟨h1, h2, h3⟩ := hu
    simp [convert_altitude, huv, h1, h2, h3, exceptBind_error]
  · intro x u v hu hv
    have huv : u ≠ v := fun he => hv (he ▸ hu)
    simp only [List.mem_cons, List.not_mem_nil, or_false, not_or] at hv
    obtain ⟨n1, n2, n3⟩ := hv
    fin_cases hu <;> simp [convert_altitude, huv, n1, n2, n3, exceptBind_ok, exceptBind_error]
  · intro x u v hu huv
    simp only [List.mem_cons, List.not_mem_nil, or_false, not_or] at hu
    obtain ⟨h1, h2, h3, h4⟩ := hu
    simp [convert_velocity, huv, h1, h2, h3, h4, exceptBind_error]
  · intro x u v hu hv
    have huv : u ≠ v := fun he => hv (he ▸ hu)
    simp only [List.mem_cons, List.not_mem_nil, or_false, not_or] at hv
    obtain ⟨n1, n2, n3, n4⟩ := hv
    fin_cases hu <;>
      simp [convert_velocity, huv, n1, n2, n3, n4, exceptBind_ok, exceptBind_error]
  · intro x u v hu huv
    simp only [List.mem_cons, List.not_mem_nil, or_false, not_or] at hu
    obtain ⟨h1, h2, h3⟩ := hu
    simp [convert_pressure, huv, h1, h2, h3, exceptBind_error]
  · intro x u v hu hv
    have huv : u ≠ v := fun he => hv (he ▸ hu)
    simp only [List.mem_cons, List.not_mem_nil, or_false, not_or] at hv
    obtain ⟨n1, n2, n3⟩ := hv
    fin_cases hu <;> simp [convert_pressure, huv, n1, n2, n3, exceptBind_ok, exceptBind_error]
  · intro x u v hu huv
    simp only [List.mem_cons, List.not_mem_nil, or_false, not_or] at hu
    obtain ⟨h1, h2, h3⟩ := hu
    simp [convert_density, huv, h1, h2, h3, exceptBind_error]
  · intro x u v hu hv
    have huv : u ≠ v := fun he => hv (he ▸ hu)
    simp only [List.mem_cons, List.not_mem_nil, or_false, not_or] at hv
    obtain ⟨n1, n2, n3⟩ := hv
    fin_cases hu <;> simp [convert_density, huv, n1, n2, n3, exceptBind_ok, exceptBind_error]
  · intro x u
    exact ⟨by simp [convert_altitude], by simp [convert_velocity], by simp [convert_pressure],
      by simp [convert_density]⟩

/-- Witness for C3 with the unsupported token `bar`. -/
theorem claim_C3_witness :
    convert_pressure 1 "bar" "psf"
      = Except.error (AtmError.invalidUnit "pressure_units_in" (PyVal.str "bar")
          ["psf", "psi", "Pa"]) ∧
    convert_altitude 1 "ft" "bar"
      = Except.error (AtmError.invalidUnit "alt_units_out" (PyVal.str "bar")
          ["ft", "m", "kft"]) :=
  ⟨claim_C3_invalid_unit_amended.2.2.2.2.1 1 "bar" "psf" (by decide) (by decide),
    claim_C3_invalid_unit_amended.2.1 1 "ft" "bar" (by decide) (by decide)⟩

/-- C7: converting a value between any two supported units of a dimension and
back returns the value exactly (the factors are exact reciprocals over the
reals), and equal input/output tokens return the input unchanged. -/
theorem claim_C7_unit_round_trip :
    (∀ (u : String) (x : ℝ), convert_altitude x u u = Except.ok x ∧
      convert_velocity x u u = Except.ok x ∧ convert_pressure x u u = Except.ok x ∧
      convert_density x u u = Except.ok x) ∧
    (∀ u1 u2, u1 ∈ (["ft", "m", "kft"] : List String) →
      u2 ∈ (["ft", "m", "kft"] : List String) → ∀ x : ℝ,
      convert_altitude x u1 u2 >>= (fun y => convert_altitude y u2 u1) = Except.ok x) ∧
    (∀ u1 u2, u1 ∈ (["ft/s", "m/s", "in/s", "knots"] : List String) →
      u2 ∈ (["ft/s", "m/s", "in/s", "knots"] : List String) → ∀ x : ℝ,
      convert_velocity x u1 u2 >>= (fun y => convert_velocity y u2 u1) = Except.ok x) ∧
    (∀ u1 u2, u1 ∈ (["psf", "psi", "Pa"] : List String) →
      u2 ∈ (["psf", "psi", "Pa"] : List String) → ∀ x : ℝ,
      convert_pressure x u1 u2 >>= (fun y => convert_pressure y u2 u1) = Except.ok x) ∧
    (∀ u1 u2, u1 ∈ (["slug/ft^3", "slinch/in^3", "kg/m^3"] : List String) →
      u2 ∈ (["slug/ft^3", "slinch/in^3", "kg/m^3"] : List String) → ∀ x : ℝ,
      convert_density x u1 u2 >>= (fun y => convert_density y u2 u1) = Except.ok x) := by
  refine ⟨?_, ?_, ?_, ?_, ?_⟩
  · intro u x
    exact ⟨by simp [convert_altitude], by simp [convert_velocity], by simp [convert_pressure],
      by simp [convert_density]⟩
  · intro u1 u2 h1 h2 x
    fin_cases h1 <;> fin_cases h2 <;>
      simp [convert_altitude, exceptBind_ok, String.reduceEq] <;> ring
  · intro u1 u2 h1 h2 x
    fin_cases h1 <;> fin_cases h2 <;>
      simp [convert_velocity, exceptBind_ok, String.reduceEq] <;> ring
  · intro u1 u2 h1 h2 x
    fin_cases h1 <;> fin_cases h2 <;>
      simp [convert_pressure, exceptBind_ok, String.reduceEq] <;> ring
  · intro u1 u2 h1 h2 x
    fin_cases h1 <;> fin_cases h2 <;>
      simp [convert_density, exceptBind_ok, String.reduceEq] <;> ring

/-- Witness for C7: altitude 10000 ft to metres and back. -/
theorem claim_C7_witness :
    convert_altitude 10000 "ft" "m" >>= (fun y => convert_altitude y "m" "ft")
      = Except.ok 10000 :=
  claim_C7_unit_round_trip.2.1 "ft" "m" (by simp) (by simp) 10000

/-! ### Solver loop facts -/

/-- The density secant loop always succeeds, within the iteration cap. -/
theorem density_loop_ok : ∀ (g : ℕ) (d a b : ℝ) (n : ℕ), 20 - n = g → n ≤ 20 →
    ∃ alt m, n ≤ m ∧ m ≤ 20 ∧ get_alt_for_density_loop d a b n = Except.ok (alt, m) := by
  intro g
  induction g with
  | zero =>
    intro d a b n hg hn
    have hn20 : n = 20 := by omega
    subst hn20
    rw [get_alt_for_density_loop]
    rw [dif_neg (by rintro ⟨-, h⟩; omega)]
    exact ⟨b, 20, le_rfl, le_rfl, rfl⟩
  | succ g ih =>
    intro d a b n hg hn
    rw [get_alt_for_density_loop]
    by_cases hcond : |b - a| > 5 ∧ n < 20
    · rw [dif_pos hcond]
      simp only [atm_density_ft, exceptBind_ok]
      obtain ⟨alt, m, h1, h2, h3⟩ := ih d b _ (n + 1) (by omega) (by omega)
      exact ⟨alt, m, by omega, h2, h3⟩
    · rw [dif_neg hcond]
      exact ⟨b, n, le_rfl, hn, rfl⟩

/-- The pressure secant loop always succeeds, within the iteration cap. -/
theorem pressure_loop_ok : ∀ (g : ℕ) (p a b : ℝ) (n : ℕ), 20 - n = g → n ≤ 20 →
    ∃ alt m, n ≤ m ∧ m ≤ 20 ∧ get_alt_for_pressure_loop p a b n = Except.ok (alt, m) := by
  intro g
  induction g with
  | zero =>
    intro p a b n hg hn
    have hn20 : n = 20 := by omega
    subst hn20
    rw [get_alt_for_pressure_loop]
    rw [dif_neg (by rintro ⟨-, h⟩; omega)]
    exact ⟨b, 20, le_rfl, le_rfl, rfl⟩
  | succ g ih =>
    intro p a b n hg hn
    rw [get_alt_for_pressure_loop]
    by_cases hcond : |b - a| > 5 ∧ n < 20
    · rw [dif_pos hcond]
      simp only [atm_pressure_ft, exceptBind_ok]
      obtain ⟨alt, m, h1, h2, h3⟩ := ih p b _ (n + 1) (by omega) (by omega)
      exact ⟨alt, m, by omega, h2, h3⟩
    · rw [dif_neg hcond]
      exact ⟨b, n, le_rfl, hn, rfl⟩

/-- The equivalent-airspeed secant loop always succeeds, within the iteration
cap. -/
theorem eas_loop_ok : ∀ (g : ℕ) (e mach k a b : ℝ) (n : ℕ), 20 - n = g → n ≤ 20 →
    ∃ alt m, n ≤ m ∧ m ≤ 20 ∧ get_alt_for_eas_mach_loop e mach k a b n = Except.ok (alt, m) := by
  intro g
  induction g with
  | zero =>
    intro e mach k a b n hg hn
    have hn20 : n = 20 := by omega
    subst hn20
    rw [get_alt_for_eas_mach_loop]
    rw [dif_neg (by rintro ⟨-, h⟩; omega)]
    exact ⟨b, 20, le_rfl, le_rfl, rfl⟩
  | succ g ih =>
    intro e mach k a b n hg hn
    rw [get_alt_for_eas_mach_loop]
    by_cases hcond : |b - a| > 5 ∧ n < 20
    · rw [dif_pos hcond]
      simp only [atm_temperature_ft, atm_pressure_ft, exceptBind_ok]
      obtain ⟨alt, m, h1, h2, h3⟩ := ih e mach k b _ (n + 1) (by omega) (by omega)
      exact ⟨alt, m, by omega, h2, h3⟩
    · rw [dif_neg hcond]
      exact ⟨b, n, le_rfl, hn, rfl⟩

/-- C4: each inverse solver terminates: the secant loop performs at most 20
iterations and always returns a value (never a non-convergence error); when
successive estimates differ by at most the 5 ft tolerance the loop stops
immediately, and when the iteration cap of 20 is reached the last estimate is
returned. -/
theorem claim_C4_solver_termination :
    (∀ d : ℝ, ∃ alt n, n ≤ 20 ∧ get_alt_for_density_loop d 0 5000 0 = Except.ok (alt, n) ∧
      get_alt_for_density d = Except.ok alt) ∧
    (∀ p : ℝ, ∃ alt n, n ≤ 20 ∧ get_alt_for_pressure_loop p 0 5000 0 = Except.ok (alt, n) ∧
      get_alt_for_pressure p "psf" "ft" = Except.ok alt) ∧
    (∀ q mach : ℝ, ∃ alt n, n ≤ 20 ∧
      get_alt_for_pressure_loop (2 * q / (1.4 * mach ^ (2 : ℕ))) 0 5000 0 = Except.ok (alt, n) ∧
      get_alt_for_q_mach q mach false = Except.ok alt) ∧
    (∀ e mach : ℝ, ∃ alt n, n ≤ 20 ∧
      get_alt_for_eas_mach_loop e mach
          (Real.sqrt (temp_of_z 0 / Real.exp (lnp_of_z 0))) 0 5000 0 = Except.ok (alt, n) ∧
      get_alt_for_eas_mach e mach "ft/s" "ft" = Except.ok alt) ∧
    (∀ (d a b : ℝ) (n : ℕ), |b - a| ≤ 5 →
      get_alt_for_density_loop d a b n = Except.ok (b, n)) ∧
    (∀ (p a b : ℝ) (n : ℕ), |b - a| ≤ 5 →
      get_alt_for_pressure_loop p a b n = Except.ok (b, n)) ∧
    (∀ (e mach k a b : ℝ) (n : ℕ), |b - a| ≤ 5 →
      get_alt_for_eas_mach_loop e mach k a b n = Except.ok (b, n)) ∧
    (∀ d a b : ℝ, get_alt_for_density_loop d a b 20 = Except.ok (b, 20)) ∧
    (∀ p a b : ℝ, get_alt_for_pressure_loop p a b 20 = Except.ok (b, 20)) ∧
    (∀ e mach k a b : ℝ, get_alt_for_eas_mach_loop e mach k a b 20 = Except.ok (b, 20)) := by
  refine ⟨?_, ?_, ?_, ?_, ?_, ?_, ?_, ?_, ?_, ?_⟩
  · intro d
    obtain ⟨alt, m, _, h2, h3⟩ := density_loop_ok 20 d 0 5000 0 (by omega) (by omega)
    exact ⟨alt, m, h2, h3, by simp [get_alt_for_density, h3, exceptBind_ok]⟩
  · intro p
    obtain ⟨alt, m, _, h2, h3⟩ := pressure_loop_ok 20 p 0 5000 0 (by omega) (by omega)
    refine ⟨alt, m, h2, h3, ?_⟩
    simp [get_alt_for_pressure, _convert_pressure, convert_pressure, convert_altitude,
      h3, exceptBind_ok]
  · intro q mach
    obtain ⟨alt, m, _, h2, h3⟩ :=
      pressure_loop_ok 20 (2 * q / (1.4 * mach ^ (2 : ℕ))) 0 5000 0 (by omega) (by omega)
    refine ⟨alt, m, h2, h3, ?_⟩
    simp only [get_alt_for_q_mach, Bool.false_eq_true, if_false]
    simp [get_alt_for_pressure, _convert_pressure, convert_pressure, convert_altitude,
      h3, exceptBind_ok]
  · intro e mach
    obtain ⟨alt, m, _, h2, h3⟩ :=
      eas_loop_ok 20 e mach (Real.sqrt (temp_of_z 0 / Real.exp (lnp_of_z 0))) 0 5000 0
        (by omega) (by omega)
    refine ⟨alt, m, h2, h3, ?_⟩
    simp [get_alt_for_eas_mach, _convert_velocity, convert_velocity, convert_altitude,
      atm_temperature_ft, atm_pressure_ft, h3, exceptBind_ok]
  · intro d a b n h
    rw [get_alt_for_density_loop, dif_neg (by rintro ⟨h5, -⟩; linarith)]
  · intro p a b n h
    rw [get_alt_for_pressure_loop, dif_neg (by rintro ⟨h5, -⟩; linarith)]
  · intro e mach k a b n h
    rw [get_alt_for_eas_mach_loop, dif_neg (by rintro ⟨h5, -⟩; linarith)]
  · intro d a b
    rw [get_alt_for_density_loop, dif_neg (by rintro ⟨-, h⟩; omega)]
  · intro p a b
    rw [get_alt_for_pressure_loop, dif_neg (by rintro ⟨-, h⟩; omega)]
  · intro e mach k a b
    rw [get_alt_for_eas_mach_loop, dif_neg (by rintro ⟨-, h⟩; omega)]

/-- Witness for C4: the early-stop clauses at concrete inputs. -/
theorem claim_C4_witness :
    get_alt_for_density_loop 0.002 0 3 7 = Except.ok (3, 7) ∧
      get_alt_for_pressure_loop 100 0 3 7 = Except.ok (3, 7) ∧
      get_alt_for_eas_mach_loop 200 0.5 1 0 3 7 = Except.ok (3, 7) :=
  ⟨claim_C4_solver_termination.2.2.2.2.1 0.002 0 3 7
      (by rw [show |(3 : ℝ) - 0| = 3 by simp]; norm_num),
    claim_C4_solver_termination.2.2.2.2.2.1 100 0 3 7
      (by rw [show |(3 : ℝ) - 0| = 3 by simp]; norm_num),
    claim_C4_solver_termination.2.2.2.2.2.2.1 200 0.5 1 0 3 7
      (by rw [show |(3 : ℝ) - 0| = 3 by simp]; norm_num)⟩

/-- In contrast to `atm_unit_reynolds_number`, the direct algebraic variant
`atm_unit_reynolds_number2` does return a value for default units. -/
theorem atm_unit_reynolds_number2_returns (alt mach : ℝ) :
    ∃ r, atm_unit_reynolds_number2 alt mach "ft" "1/ft" = Except.ok r := by
  simp [atm_unit_reynolds_number2, _update_alt_ft, exceptBind_ok, atm_pressure_ft,
    atm_temperature_ft]
